import Mathlib

/-!
Verification of the Haiku 9P2000.L client (haiku-9p) against its
natural-language specification.

The development shallowly embeds the protocol core of the repository:

* the wire codec `P9Buffer` / `P9Message`
  (src/add-ons/kernel/file_systems/9p/9p_message.cpp) as executable
  functions over byte lists (`WBuf` for the write cursor, `RBuf` for the
  read cursor);
* the FID/tag bitmap pools (9p_client.cpp, `FidPool` / `TagPool`) as a
  `Pool` structure over a `List Bool` bitmap;
* the protocol client `P9Client` (9p_client.cpp) as explicit
  state-passing functions over `MState`, with the transport modelled as
  an oracle list of per-transaction outcomes (`DoResult`), and the list
  of frames handed to `transport->SendMessage` recorded in `MState.sent`;
* the inode adaptation layer (Inode.cpp) for the read/write chunking
  loops and the mutation guards;
* the mount-argument parser (Volume.cpp, `Volume::_ParseArgs`).

Machine integers are `Nat` with explicit truncation (`% 256`, `% 65536`,
...) exactly where the C types truncate.  Fallible C functions returning
`status_t` become `Except Status _` or return a `Status` component.
-/

/-- Haiku `status_t` constants actually produced by the 9P sources,
as an abstract error taxonomy (the concrete numeric values of the
Haiku constants never matter to the client logic). -/
inductive Status where
  | bOK
  | bError
  | bNoMemory
  | bNoInit
  | bNotSupported
  | bEntryNotFound
  | bReadOnlyDevice
  | bBadValue
  | bBufferOverflow
  | bNameTooLong
  | bPermissionDenied
  | bIOError
  | bDevNotReady
  | bFileExists
  | bCrossDeviceLink
  | bNotADirectory
  | bIsADirectory
  | bNoMoreFDs
  | bDeviceFull
  | bDirectoryNotEmpty
  | bDeviceNotFound
  deriving DecidableEq, Repr

open Status

instance {e a : Type} [DecidableEq e] [DecidableEq a] :
    DecidableEq (Except e a) := fun x y =>
  match x, y with
  | .error u, .error v =>
    match decEq u v with
    | isTrue h => isTrue (h ▸ rfl)
    | isFalse h => isFalse (fun hc => h (Except.error.inj hc))
  | .ok u, .ok v =>
    match decEq u v with
    | isTrue h => isTrue (h ▸ rfl)
    | isFalse h => isFalse (fun hc => h (Except.ok.inj hc))
  | .error _, .ok _ => isFalse (fun hc => Except.noConfusion hc)
  | .ok _, .error _ => isFalse (fun hc => Except.noConfusion hc)

/-- 9p.h: reserved values. -/
def P9_NOTAG : Nat := 65535
def P9_NOFID : Nat := 4294967295
def P9_NONUNAME : Nat := 4294967295

/-- 9p.h: message type codes (selection used by the client). -/
def P9_RLERROR : Nat := 7
def P9_TSTATFS : Nat := 8
def P9_RSTATFS : Nat := 9
def P9_TLOPEN : Nat := 12
def P9_RLOPEN : Nat := 13
def P9_TLCREATE : Nat := 14
def P9_RLCREATE : Nat := 15
def P9_TSYMLINK : Nat := 16
def P9_RSYMLINK : Nat := 17
def P9_TREADLINK : Nat := 22
def P9_RREADLINK : Nat := 23
def P9_TGETATTR : Nat := 24
def P9_RGETATTR : Nat := 25
def P9_TSETATTR : Nat := 26
def P9_RSETATTR : Nat := 27
def P9_TREADDIR : Nat := 40
def P9_RREADDIR : Nat := 41
def P9_TFSYNC : Nat := 50
def P9_RFSYNC : Nat := 51
def P9_TLINK : Nat := 70
def P9_RLINK : Nat := 71
def P9_TMKDIR : Nat := 72
def P9_RMKDIR : Nat := 73
def P9_TRENAMEAT : Nat := 74
def P9_RRENAMEAT : Nat := 75
def P9_TUNLINKAT : Nat := 76
def P9_RUNLINKAT : Nat := 77
def P9_TVERSION : Nat := 100
def P9_RVERSION : Nat := 101
def P9_TATTACH : Nat := 104
def P9_RATTACH : Nat := 105
def P9_TWALK : Nat := 110
def P9_RWALK : Nat := 111
def P9_TREAD : Nat := 116
def P9_RREAD : Nat := 117
def P9_TWRITE : Nat := 118
def P9_RWRITE : Nat := 119
def P9_TCLUNK : Nat := 120
def P9_RCLUNK : Nat := 121
def P9_TREMOVE : Nat := 122
def P9_RREMOVE : Nat := 123

def P9_DEFAULT_MSIZE : Nat := 8192
def P9_HEADER_SIZE : Nat := 7

/-- kernel_interface.cpp `p9_error_to_haiku`: the fixed errno translation
table (Linux errno carried by `Rlerror` to Haiku `status_t`). -/
def p9ErrorToHaiku (error : Nat) : Status :=
  if error = 0 then bOK
  else if error = 1 then bPermissionDenied      -- EPERM
  else if error = 2 then bEntryNotFound         -- ENOENT
  else if error = 5 then bIOError               -- EIO
  else if error = 6 then bDevNotReady           -- ENXIO
  else if error = 13 then bPermissionDenied     -- EACCES
  else if error = 17 then bFileExists           -- EEXIST
  else if error = 18 then bCrossDeviceLink      -- EXDEV
  else if error = 19 then bDevNotReady          -- ENODEV
  else if error = 20 then bNotADirectory        -- ENOTDIR
  else if error = 21 then bIsADirectory         -- EISDIR
  else if error = 22 then bBadValue             -- EINVAL
  else if error = 23 then bNoMoreFDs            -- ENFILE
  else if error = 24 then bNoMoreFDs            -- EMFILE
  else if error = 28 then bDeviceFull           -- ENOSPC
  else if error = 29 then bBadValue             -- ESPIPE
  else if error = 30 then bReadOnlyDevice       -- EROFS
  else if error = 36 then bNameTooLong          -- ENAMETOOLONG
  else if error = 39 then bDirectoryNotEmpty    -- ENOTEMPTY
  else if error = 61 then bEntryNotFound        -- ENODATA
  else if error = 75 then bBufferOverflow       -- EOVERFLOW
  else if error = 95 then bNotSupported         -- EOPNOTSUPP
  else bError

/-! ## Little-endian encoding (ByteOrder.h `B_HOST_TO_LENDIAN_*`) -/

/-- Little-endian byte list of `v` in `n` bytes (truncating like a
store through an n-byte unsigned integer). -/
def leBytes : Nat → Nat → List Nat
  | 0, _ => []
  | n + 1, v => v % 256 :: leBytes n (v / 256)

/-- Value of a little-endian byte list (each entry read as a `uint8`). -/
def leVal : List Nat → Nat
  | [] => 0
  | b :: rest => b % 256 + 256 * leVal rest

theorem leBytes_length (n v : Nat) : (leBytes n v).length = n := by
  induction n generalizing v with
  | zero => rfl
  | succ n ih => simp [leBytes, ih]

theorem leVal_leBytes (n v : Nat) : leVal (leBytes n v) = v % 256 ^ n := by
  induction n generalizing v with
  | zero => simp [leBytes, leVal, Nat.mod_one]
  | succ n ih =>
    have h4 : (0:Nat) < 256 ^ n := pow_pos (by norm_num) n
    have h2 : v / 256 % 256 ^ n < 256 ^ n := Nat.mod_lt _ h4
    have h1 : v % 256 < 256 := Nat.mod_lt _ (by norm_num)
    have hlt : v % 256 + 256 * (v / 256 % 256 ^ n) < 256 * 256 ^ n := by
      have h3 : 256 * (v / 256 % 256 ^ n) ≤ 256 * (256 ^ n - 1) :=
        Nat.mul_le_mul_left 256 (by omega)
      omega
    have key : v % (256 * 256 ^ n) = v % 256 + 256 * (v / 256 % 256 ^ n) := by
      conv_lhs => rw [← Nat.div_add_mod v 256,
        ← Nat.div_add_mod (v / 256) (256 ^ n)]
      have hre : 256 * (256 ^ n * (v / 256 / 256 ^ n) + v / 256 % 256 ^ n)
            + v % 256
          = 256 * 256 ^ n * (v / 256 / 256 ^ n)
            + (v % 256 + 256 * (v / 256 % 256 ^ n)) := by ring
      rw [hre, Nat.mul_add_mod, Nat.mod_eq_of_lt hlt]
    have hmm : v % 256 % 256 = v % 256 := Nat.mod_mod_of_dvd _ dvd_rfl
    simp only [leBytes, leVal, ih]
    rw [hmm, pow_succ, mul_comm (256 ^ n) 256, key]

/-! ## P9Buffer: write cursor (9p_message.cpp lines 311-448)

A `P9Buffer` used for writing is a fixed-capacity buffer with a write
position; since the client only ever appends, we model the written
region as the list `data` (so `fWritePos = data.length`). -/

structure WBuf where
  cap : Nat
  data : List Nat
  deriving DecidableEq, Repr

def WBuf.writeUint8 (b : WBuf) (v : Nat) : Except Status WBuf :=
  if b.data.length + 1 > b.cap then .error bBufferOverflow
  else .ok { b with data := b.data ++ [v % 256] }

def WBuf.writeUint16 (b : WBuf) (v : Nat) : Except Status WBuf :=
  if b.data.length + 2 > b.cap then .error bBufferOverflow
  else .ok { b with data := b.data ++ leBytes 2 v }

def WBuf.writeUint32 (b : WBuf) (v : Nat) : Except Status WBuf :=
  if b.data.length + 4 > b.cap then .error bBufferOverflow
  else .ok { b with data := b.data ++ leBytes 4 v }

def WBuf.writeUint64 (b : WBuf) (v : Nat) : Except Status WBuf :=
  if b.data.length + 8 > b.cap then .error bBufferOverflow
  else .ok { b with data := b.data ++ leBytes 8 v }

/-- `WriteString(str)`: the length is `strlen` truncated through the
`uint16 len` local, then `WriteString(str, len)` writes `len[u16]`
followed by `len` raw bytes. -/
def WBuf.writeString (b : WBuf) (s : List Nat) : Except Status WBuf :=
  if b.data.length + 2 + s.length % 65536 > b.cap then .error bBufferOverflow
  else .ok { b with data := (b.data ++ leBytes 2 (s.length % 65536)
    ++ s.take (s.length % 65536)) }

/-- QID: `(type u8, version u32, path u64)`, 13 bytes. -/
structure Qid where
  type : Nat
  version : Nat
  path : Nat
  deriving DecidableEq, Repr

def WBuf.writeQid (b : WBuf) (q : Qid) : Except Status WBuf := do
  let b ← b.writeUint8 q.type
  let b ← b.writeUint32 q.version
  b.writeUint64 q.path

/-! ## P9Buffer: read cursor (9p_message.cpp lines 452-577)

For reading, the written region (`fWritePos`) of a received message is
exactly the received byte list, so `RBuf.data.length` plays the role of
`fWritePos` and `readPos` is the read cursor. -/

structure RBuf where
  data : List Nat
  readPos : Nat
  deriving DecidableEq, Repr

def RBuf.readUint8 (r : RBuf) : Except Status (Nat × RBuf) :=
  if r.readPos + 1 > r.data.length then .error bBufferOverflow
  else .ok (r.data.getD r.readPos 0 % 256, { r with readPos := r.readPos + 1 })

def RBuf.readUint16 (r : RBuf) : Except Status (Nat × RBuf) :=
  if r.readPos + 2 > r.data.length then .error bBufferOverflow
  else .ok (leVal ((r.data.drop r.readPos).take 2),
    { r with readPos := r.readPos + 2 })

def RBuf.readUint32 (r : RBuf) : Except Status (Nat × RBuf) :=
  if r.readPos + 4 > r.data.length then .error bBufferOverflow
  else .ok (leVal ((r.data.drop r.readPos).take 4),
    { r with readPos := r.readPos + 4 })

def RBuf.readUint64 (r : RBuf) : Except Status (Nat × RBuf) :=
  if r.readPos + 8 > r.data.length then .error bBufferOverflow
  else .ok (leVal ((r.data.drop r.readPos).take 8),
    { r with readPos := r.readPos + 8 })

/-- `ReadString(buffer, bufferSize, len)`: reads the `u16` length
(advancing the cursor), then checks the remaining payload and the
destination size before copying out. -/
def RBuf.readString (r : RBuf) (bufferSize : Nat) :
    Except Status (List Nat × RBuf) := do
  let (len, r) ← r.readUint16
  if r.readPos + len > r.data.length then .error bBufferOverflow
  else if len ≥ bufferSize then .error bNameTooLong
  else .ok ((r.data.drop r.readPos).take len,
    { r with readPos := r.readPos + len })

/-- `ReadStringAlloc`: like `ReadString` but into a freshly allocated
string, so no destination-size check (the `malloc` failure path is not
modelled; no claim depends on it). -/
def RBuf.readStringAlloc (r : RBuf) : Except Status (List Nat × RBuf) := do
  let (len, r) ← r.readUint16
  if r.readPos + len > r.data.length then .error bBufferOverflow
  else .ok ((r.data.drop r.readPos).take len,
    { r with readPos := r.readPos + len })

def RBuf.readQid (r : RBuf) : Except Status (Qid × RBuf) := do
  let (t, r) ← r.readUint8
  let (v, r) ← r.readUint32
  let (p, r) ← r.readUint64
  .ok (⟨t, v, p⟩, r)

/-! ## P9Message: frame assembly (9p_message.cpp lines 583-674)

A request message is built into a fresh buffer of capacity `fMsize`:
`WriteHeader` reserves the four size bytes and writes `type` and `tag`,
the payload is appended, and `FinalizeHeader` back-patches the first
four bytes with the total length. -/

def writeHeader (b : WBuf) (ty tag : Nat) : Except Status WBuf := do
  let b ← b.writeUint32 0
  let b ← b.writeUint8 ty
  b.writeUint16 tag

def finalizeHeader (b : WBuf) : List Nat :=
  leBytes 4 b.data.length ++ b.data.drop 4

/-- `ReadHeader`: reset the read cursor, then `size[u32] type[u8] tag[u16]`. -/
def parseHeader (resp : List Nat) : Except Status (Nat × Nat × Nat) := do
  let (sz, r) ← RBuf.readUint32 { data := resp, readPos := 0 }
  let (ty, r) ← r.readUint8
  let (tg, _) ← r.readUint16
  .ok (sz, ty, tg)

/-- The cached `fType` a successful `ReadHeader` leaves behind:
the `uint8` at offset 4 of the frame. -/
def respType (resp : List Nat) : Nat := resp.getD 4 0 % 256

/-- The read cursor as `ReadHeader` leaves it: at the payload start. -/
def payloadBuf (resp : List Nat) : RBuf := { data := resp, readPos := 7 }

/-! ### Request builders (9p_message.cpp lines 680-1211) -/

def buildVersion (cap tag msize : Nat) (version : List Nat) :
    Except Status (List Nat) := do
  let b ← writeHeader ⟨cap, []⟩ P9_TVERSION tag
  let b ← b.writeUint32 msize
  let b ← b.writeString version
  .ok (finalizeHeader b)

def buildAttach (cap tag fid afid : Nat) (uname aname : List Nat)
    (n_uname : Nat) : Except Status (List Nat) := do
  let b ← writeHeader ⟨cap, []⟩ P9_TATTACH tag
  let b ← b.writeUint32 fid
  let b ← b.writeUint32 afid
  let b ← b.writeString uname
  let b ← b.writeString aname
  let b ← b.writeUint32 n_uname
  .ok (finalizeHeader b)

def buildWalk (cap tag fid newfid : Nat) (wnames : List (List Nat)) :
    Except Status (List Nat) := do
  let b ← writeHeader ⟨cap, []⟩ P9_TWALK tag
  let b ← b.writeUint32 fid
  let b ← b.writeUint32 newfid
  let b ← b.writeUint16 wnames.length
  let b ← wnames.foldlM (fun b w => b.writeString w) b
  .ok (finalizeHeader b)

def buildLopen (cap tag fid flags : Nat) : Except Status (List Nat) := do
  let b ← writeHeader ⟨cap, []⟩ P9_TLOPEN tag
  let b ← b.writeUint32 fid
  let b ← b.writeUint32 flags
  .ok (finalizeHeader b)

def buildLcreate (cap tag fid : Nat) (name : List Nat)
    (flags mode gid : Nat) : Except Status (List Nat) := do
  let b ← writeHeader ⟨cap, []⟩ P9_TLCREATE tag
  let b ← b.writeUint32 fid
  let b ← b.writeString name
  let b ← b.writeUint32 flags
  let b ← b.writeUint32 mode
  let b ← b.writeUint32 gid
  .ok (finalizeHeader b)

def buildRead (cap tag fid offset count : Nat) : Except Status (List Nat) := do
  let b ← writeHeader ⟨cap, []⟩ P9_TREAD tag
  let b ← b.writeUint32 fid
  let b ← b.writeUint64 offset
  let b ← b.writeUint32 count
  .ok (finalizeHeader b)

/-- `BuildWrite`: header and fixed fields, then `count` payload bytes
appended directly to the frame (checked against the capacity first). -/
def buildWrite (cap tag fid offset : Nat) (data : List Nat) (count : Nat) :
    Except Status (List Nat) := do
  let b ← writeHeader ⟨cap, []⟩ P9_TWRITE tag
  let b ← b.writeUint32 fid
  let b ← b.writeUint64 offset
  let b ← b.writeUint32 count
  if count > 0 then
    if b.data.length + count > b.cap then .error bBufferOverflow
    else .ok (finalizeHeader
      { b with data := b.data ++ (data.take count).map (· % 256) })
  else .ok (finalizeHeader b)

def buildClunk (cap tag fid : Nat) : Except Status (List Nat) := do
  let b ← writeHeader ⟨cap, []⟩ P9_TCLUNK tag
  let b ← b.writeUint32 fid
  .ok (finalizeHeader b)

def buildRemove (cap tag fid : Nat) : Except Status (List Nat) := do
  let b ← writeHeader ⟨cap, []⟩ P9_TREMOVE tag
  let b ← b.writeUint32 fid
  .ok (finalizeHeader b)

def buildGetattr (cap tag fid mask : Nat) : Except Status (List Nat) := do
  let b ← writeHeader ⟨cap, []⟩ P9_TGETATTR tag
  let b ← b.writeUint32 fid
  let b ← b.writeUint64 mask
  .ok (finalizeHeader b)

def buildSetattr (cap tag fid valid mode uid gid size asec ansec msec mnsec :
    Nat) : Except Status (List Nat) := do
  let b ← writeHeader ⟨cap, []⟩ P9_TSETATTR tag
  let b ← b.writeUint32 fid
  let b ← b.writeUint32 valid
  let b ← b.writeUint32 mode
  let b ← b.writeUint32 uid
  let b ← b.writeUint32 gid
  let b ← b.writeUint64 size
  let b ← b.writeUint64 asec
  let b ← b.writeUint64 ansec
  let b ← b.writeUint64 msec
  let b ← b.writeUint64 mnsec
  .ok (finalizeHeader b)

def buildReaddir (cap tag fid offset count : Nat) :
    Except Status (List Nat) := do
  let b ← writeHeader ⟨cap, []⟩ P9_TREADDIR tag
  let b ← b.writeUint32 fid
  let b ← b.writeUint64 offset
  let b ← b.writeUint32 count
  .ok (finalizeHeader b)

def buildMkdir (cap tag dfid : Nat) (name : List Nat) (mode gid : Nat) :
    Except Status (List Nat) := do
  let b ← writeHeader ⟨cap, []⟩ P9_TMKDIR tag
  let b ← b.writeUint32 dfid
  let b ← b.writeString name
  let b ← b.writeUint32 mode
  let b ← b.writeUint32 gid
  .ok (finalizeHeader b)

def buildUnlinkat (cap tag dfid : Nat) (name : List Nat) (flags : Nat) :
    Except Status (List Nat) := do
  let b ← writeHeader ⟨cap, []⟩ P9_TUNLINKAT tag
  let b ← b.writeUint32 dfid
  let b ← b.writeString name
  let b ← b.writeUint32 flags
  .ok (finalizeHeader b)

def buildRenameat (cap tag olddirfid : Nat) (oldname : List Nat)
    (newdirfid : Nat) (newname : List Nat) : Except Status (List Nat) := do
  let b ← writeHeader ⟨cap, []⟩ P9_TRENAMEAT tag
  let b ← b.writeUint32 olddirfid
  let b ← b.writeString oldname
  let b ← b.writeUint32 newdirfid
  let b ← b.writeString newname
  .ok (finalizeHeader b)

def buildStatfs (cap tag fid : Nat) : Except Status (List Nat) := do
  let b ← writeHeader ⟨cap, []⟩ P9_TSTATFS tag
  let b ← b.writeUint32 fid
  .ok (finalizeHeader b)

def buildFsync (cap tag fid datasync : Nat) : Except Status (List Nat) := do
  let b ← writeHeader ⟨cap, []⟩ P9_TFSYNC tag
  let b ← b.writeUint32 fid
  let b ← b.writeUint32 datasync
  .ok (finalizeHeader b)

def buildReadlink (cap tag fid : Nat) : Except Status (List Nat) := do
  let b ← writeHeader ⟨cap, []⟩ P9_TREADLINK tag
  let b ← b.writeUint32 fid
  .ok (finalizeHeader b)

def buildSymlink (cap tag dfid : Nat) (name target : List Nat) (gid : Nat) :
    Except Status (List Nat) := do
  let b ← writeHeader ⟨cap, []⟩ P9_TSYMLINK tag
  let b ← b.writeUint32 dfid
  let b ← b.writeString name
  let b ← b.writeString target
  let b ← b.writeUint32 gid
  .ok (finalizeHeader b)

def buildLink (cap tag dfid fid : Nat) (name : List Nat) :
    Except Status (List Nat) := do
  let b ← writeHeader ⟨cap, []⟩ P9_TLINK tag
  let b ← b.writeUint32 dfid
  let b ← b.writeUint32 fid
  let b ← b.writeString name
  .ok (finalizeHeader b)

/-! ### Response parsers (9p_message.cpp lines 1217-1458)

Each parser starts from the read cursor a successful `ReadHeader` left at
offset 7 (`payloadBuf`). -/

def parseLerror (resp : List Nat) : Except Status Nat := do
  let (e, _) ← (payloadBuf resp).readUint32
  .ok e

def parseVersion (resp : List Nat) : Except Status (Nat × List Nat) := do
  let (msize, r) ← (payloadBuf resp).readUint32
  let (ver, _) ← r.readString 32
  .ok (msize, ver)

def parseAttach (resp : List Nat) : Except Status Qid := do
  let (q, _) ← (payloadBuf resp).readQid
  .ok q

def parseWalk (resp : List Nat) (maxQids : Nat) :
    Except Status (Nat × List Qid) := do
  let (nwqid, r) ← (payloadBuf resp).readUint16
  if nwqid > maxQids then .error bBufferOverflow
  else
    let rec go (r : RBuf) (acc : List Qid) : Nat → Except Status (List Qid)
      | 0 => .ok acc
      | k + 1 => do
        let (q, r) ← r.readQid
        go r (acc ++ [q]) k
    let qids ← go r [] nwqid
    .ok (nwqid, qids)

def parseLopen (resp : List Nat) : Except Status (Qid × Nat) := do
  let (q, r) ← (payloadBuf resp).readQid
  let (iounit, _) ← r.readUint32
  .ok (q, iounit)

def parseLcreate (resp : List Nat) : Except Status (Qid × Nat) := do
  let (q, r) ← (payloadBuf resp).readQid
  let (iounit, _) ← r.readUint32
  .ok (q, iounit)

/-- `ParseRead` returns the count and a pointer into the buffer; the
caller copies `count` bytes out.  We return the available payload bytes
(the C `memcpy` of a count exceeding the received payload would read
trailing garbage from the oversized response buffer; no claim exercises
that case). -/
def parseRead (resp : List Nat) : Except Status (Nat × List Nat) := do
  let (count, r) ← (payloadBuf resp).readUint32
  .ok (count, (resp.drop r.readPos).take count)

def parseWrite (resp : List Nat) : Except Status Nat := do
  let (count, _) ← (payloadBuf resp).readUint32
  .ok count

/-- The 20-field `P9Attr` record of a `Rgetattr` response. -/
structure Attr where
  valid : Nat
  qid : Qid
  mode : Nat
  uid : Nat
  gid : Nat
  nlink : Nat
  rdev : Nat
  size : Nat
  blksize : Nat
  blocks : Nat
  atime_sec : Nat
  atime_nsec : Nat
  mtime_sec : Nat
  mtime_nsec : Nat
  ctime_sec : Nat
  ctime_nsec : Nat
  btime_sec : Nat
  btime_nsec : Nat
  gen : Nat
  data_version : Nat
  deriving DecidableEq, Repr

def parseGetattr (resp : List Nat) : Except Status Attr := do
  let (valid, r) ← (payloadBuf resp).readUint64
  let (qid, r) ← r.readQid
  let (mode, r) ← r.readUint32
  let (uid, r) ← r.readUint32
  let (gid, r) ← r.readUint32
  let (nlink, r) ← r.readUint64
  let (rdev, r) ← r.readUint64
  let (size, r) ← r.readUint64
  let (blksize, r) ← r.readUint64
  let (blocks, r) ← r.readUint64
  let (asec, r) ← r.readUint64
  let (ansec, r) ← r.readUint64
  let (msec, r) ← r.readUint64
  let (mnsec, r) ← r.readUint64
  let (csec, r) ← r.readUint64
  let (cnsec, r) ← r.readUint64
  let (bsec, r) ← r.readUint64
  let (bnsec, r) ← r.readUint64
  let (gen, r) ← r.readUint64
  let (dv, _) ← r.readUint64
  .ok ⟨valid, qid, mode, uid, gid, nlink, rdev, size, blksize, blocks,
    asec, ansec, msec, mnsec, csec, cnsec, bsec, bnsec, gen, dv⟩

def parseReaddir (resp : List Nat) : Except Status (Nat × List Nat) := do
  let (count, r) ← (payloadBuf resp).readUint32
  .ok (count, (resp.drop r.readPos).take count)

structure StatFS where
  type : Nat
  bsize : Nat
  blocks : Nat
  bfree : Nat
  bavail : Nat
  files : Nat
  ffree : Nat
  fsid : Nat
  namelen : Nat
  deriving DecidableEq, Repr

def parseStatfs (resp : List Nat) : Except Status StatFS := do
  let (ty, r) ← (payloadBuf resp).readUint32
  let (bsize, r) ← r.readUint32
  let (blocks, r) ← r.readUint64
  let (bfree, r) ← r.readUint64
  let (bavail, r) ← r.readUint64
  let (files, r) ← r.readUint64
  let (ffree, r) ← r.readUint64
  let (fsid, r) ← r.readUint64
  let (namelen, _) ← r.readUint32
  .ok ⟨ty, bsize, blocks, bfree, bavail, files, ffree, fsid, namelen⟩

def parseMkdir (resp : List Nat) : Except Status Qid := do
  let (q, _) ← (payloadBuf resp).readQid
  .ok q

def parseSymlink (resp : List Nat) : Except Status Qid := do
  let (q, _) ← (payloadBuf resp).readQid
  .ok q

def parseReadlink (resp : List Nat) (targetSize : Nat) :
    Except Status (List Nat) := do
  let (t, _) ← (payloadBuf resp).readString targetSize
  .ok t

/-! ## Handle pools (9p_client.cpp lines 18-168)

`FidPool` and `TagPool` are structurally identical bitmap allocators;
the bitmap is modelled as `used : List Bool` of length `maxSlots`. -/

structure Pool where
  maxSlots : Nat
  used : List Bool
  nextHint : Nat
  deriving DecidableEq, Repr

/-- `Allocate`: scan `maxSlots` candidates starting at the hint, take the
first free slot, mark it and advance the hint; return the sentinel
(`P9_NOFID` / `P9_NOTAG`) on exhaustion. -/
def Pool.allocate (p : Pool) (sentinel : Nat) : Nat × Pool :=
  match (List.range p.maxSlots).find?
      (fun i => p.used.getD ((p.nextHint + i) % p.maxSlots) true == false) with
  | some i =>
    let slot := (p.nextHint + i) % p.maxSlots
    (slot, { p with used := p.used.set slot true,
                    nextHint := (slot + 1) % p.maxSlots })
  | none => (sentinel, p)

/-- `FidPool::Release`: out-of-range fids are ignored. -/
def Pool.fidRelease (p : Pool) (fid : Nat) : Pool :=
  if fid ≥ p.maxSlots then p
  else { p with used := p.used.set fid false }

/-- `TagPool::Release`: out-of-range tags and `P9_NOTAG` are ignored. -/
def Pool.tagRelease (p : Pool) (tag : Nat) : Pool :=
  if tag ≥ p.maxSlots ∨ tag = P9_NOTAG then p
  else { p with used := p.used.set tag false }

/-- `FidPool::Init(maxFids = 256)`: zeroed bitmap, slot 0 reserved
("used for root after attach"), hint at 1. -/
def Pool.fidInit (maxFids : Nat) : Pool :=
  { maxSlots := maxFids,
    used := (List.replicate maxFids false).set 0 true,
    nextHint := 1 }

/-- `TagPool::Init(maxTags = 256)`: zeroed bitmap, hint at 0. -/
def Pool.tagInit (maxTags : Nat) : Pool :=
  { maxSlots := maxTags, used := List.replicate maxTags false, nextHint := 0 }

/-! ## P9Client state and transactions (9p_client.cpp lines 208-441) -/

structure CState where
  hasTransport : Bool
  msize : Nat
  iounit : Nat
  rootFid : Nat
  connected : Bool
  fidPool : Pool
  tagPool : Pool
  deriving DecidableEq, Repr

/-- Outcome of one `DoRequest` transaction, as seen by the caller:
either some step (response allocation, `SendMessage`, `ReceiveMessage`)
failed with a non-`B_OK` status, or a complete frame was received. -/
inductive DoResult where
  | xfail (e : Status)
  | deliver (resp : List Nat)
  deriving DecidableEq, Repr

/-- The full model state: the client, the oracle of remaining
transaction outcomes, and the frames handed to `SendMessage` so far. -/
structure MState where
  client : CState
  resps : List DoResult
  sent : List (List Nat)
  deriving DecidableEq, Repr

/-- `P9Client::DoRequest`: send the frame, then receive one response
frame into a fresh buffer.  The frame is recorded in `sent`, and the
oracle supplies the outcome (an exhausted oracle acts as an I/O error). -/
def doRequest (m : MState) (frame : List Nat) :
    MState × Except Status (List Nat) :=
  let m := { m with sent := m.sent ++ [frame] }
  match m.resps with
  | [] => (m, .error bIOError)
  | r :: rest =>
    let m := { m with resps := rest }
    match r with
    | .xfail e => (m, .error e)
    | .deliver resp => (m, .ok resp)

/-- `P9Client::CheckError` (9p_client.cpp lines 423-441): re-read the
header; on `Rlerror` parse the errno and map it; otherwise `B_OK`.
(The C ignores `ParseLerror`'s return and would map an indeterminate
errno when an `Rlerror` frame is truncated; we surface the parse
failure instead — no claim exercises that path.) -/
def checkError (resp : List Nat) : Status :=
  match parseHeader resp with
  | .error e => e
  | .ok (_, ty, _) =>
    if ty = P9_RLERROR then
      match parseLerror resp with
      | .ok e => p9ErrorToHaiku e
      | .error e => e
    else bOK

/-- The shared transaction skeleton every `P9Client` operation repeats
verbatim (e.g. `Clunk`, 9p_client.cpp lines 752-776): allocate a tag,
build the request (releasing the tag on build failure), `DoRequest`,
release the tag unconditionally, then run the operation's response
handling.  `handle` is the pure response-processing tail of the
operation; it touches no client state. -/
def transact {α : Type} (m : MState) (build : Nat → Except Status (List Nat))
    (handle : List Nat → Status × Option α) : MState × Status × Option α :=
  let tag := (m.client.tagPool.allocate P9_NOTAG).1
  let m1 : MState :=
    { m with client :=
      { m.client with tagPool := (m.client.tagPool.allocate P9_NOTAG).2 } }
  match build tag with
  | .error e =>
    ({ m1 with client :=
      { m1.client with tagPool := m1.client.tagPool.tagRelease tag } }, e, none)
  | .ok frame =>
    let d := doRequest m1 frame
    let m2 := { d.1 with client :=
      { d.1.client with tagPool := d.1.client.tagPool.tagRelease tag } }
    match d.2 with
    | .error e => (m2, e, none)
    | .ok resp => (m2, handle resp)

/-- Response handling of the operations that only acknowledge
(`Clunk`, `Remove`, `SetAttr`, `Unlink`, `Rename`, `FSync`, `Link`):
just `CheckError`, no response-type check. -/
def ackHandle (resp : List Nat) : Status × Option Unit :=
  (checkError resp, none)

/-- Response handling of the operations with a typed payload:
`CheckError`, then the `Type() != expected` check returning `B_ERROR`,
then the typed parser. -/
def typedHandle {α : Type} (expected : Nat)
    (parse : List Nat → Except Status α) (resp : List Nat) :
    Status × Option α :=
  let s := checkError resp
  if s = bOK then
    if respType resp ≠ expected then (bError, none)
    else
      match parse resp with
      | .error e => (e, none)
      | .ok a => (bOK, some a)
  else (s, none)

/-! ## P9Client operations (9p_client.cpp lines 444-1187) -/

/-- `P9Client::WalkPath` (lines 527-564). -/
def walkPathOp (m : MState) (fid newfid : Nat) (wnames : List (List Nat)) :
    MState × Status × Option (Nat × List Qid) :=
  transact m
    (fun tag => buildWalk m.client.msize tag fid newfid wnames)
    (typedHandle P9_RWALK (fun resp => parseWalk resp wnames.length))

/-- The separator-scanning loop shared by `P9Client::Walk` (lines
460-500, splitting a path on `'/'`) and `Volume::_ParseArgs`
(`strtok_r` on `','`): a left-to-right scan carrying the current run
(in reverse); runs of separators produce no empty tokens. -/
def splitSepAux (sep : Nat) : List Nat → List Nat → List (List Nat)
  | [], run => if run = [] then [] else [run.reverse]
  | c :: rest, run =>
    if c = sep then
      if run = [] then splitSepAux sep rest []
      else run.reverse :: splitSepAux sep rest []
    else splitSepAux sep rest (c :: run)

def splitSep (sep : Nat) (l : List Nat) : List (List Nat) :=
  splitSepAux sep l []

/-- `P9Client::Walk` (lines 444-524).  A `NULL`/empty path or a path
with no components is a pure clone (`nwname = 0`); otherwise one
`Twalk` of all components; on success the last qid is delivered when
the caller asked for one, and `nwqid != nwname` becomes
`B_ENTRY_NOT_FOUND`.  (`nwname` is a `uint16`, hence the truncation.) -/
def walkOp (m : MState) (fid newfid : Nat) (path : Option (List Nat))
    (wantQid : Bool) : MState × Status × Option Qid :=
  let clone := fun () =>
    let r := walkPathOp m fid newfid []
    (r.1, r.2.1, (none : Option Qid))
  match path with
  | none => clone ()
  | some p =>
    if p = [] then clone ()
    else
      let comps := splitSep 47 p
      if comps = [] then clone ()
      else
        let nwname := comps.length % 65536
        let r := walkPathOp m fid newfid (comps.take nwname)
        match r.2.2 with
        | none => (r.1, r.2.1, none)
        | some (nwqid, qids) =>
          let qout := if r.2.1 = bOK ∧ wantQid ∧ nwqid > 0
            then some (qids.getD (nwqid - 1) ⟨0, 0, 0⟩) else none
          let s := if r.2.1 = bOK ∧ nwqid ≠ nwname then bEntryNotFound
            else r.2.1
          (r.1, s, qout)

/-- `P9Client::Open` (lines 567-612): `Tlopen`; a zero response iounit
falls back to the client default. -/
def openOp (m : MState) (fid flags : Nat) :
    MState × Status × Option (Qid × Nat) :=
  let r := transact m
    (fun tag => buildLopen m.client.msize tag fid flags)
    (typedHandle P9_RLOPEN parseLopen)
  (r.1, r.2.1, r.2.2.map (fun p =>
    (p.1, if p.2 > 0 then p.2 else m.client.iounit)))

/-- `P9Client::Create` (lines 615-661): `Tlcreate`. -/
def createOp (m : MState) (fid : Nat) (name : List Nat)
    (flags mode gid : Nat) : MState × Status × Option (Qid × Nat) :=
  let r := transact m
    (fun tag => buildLcreate m.client.msize tag fid name flags mode gid)
    (typedHandle P9_RLCREATE parseLcreate)
  (r.1, r.2.1, r.2.2.map (fun p =>
    (p.1, if p.2 > 0 then p.2 else m.client.iounit)))

/-- `P9Client::Read` (lines 664-707): the requested count is capped at
`fIOUnit`; on success the parsed count and the copied-out payload are
returned. -/
def readOp (m : MState) (fid offset count : Nat) :
    MState × Status × Option (Nat × List Nat) :=
  let toRead := if count > m.client.iounit then m.client.iounit else count
  transact m
    (fun tag => buildRead m.client.msize tag fid offset toRead)
    (typedHandle P9_RREAD parseRead)

/-- `P9Client::Write` (lines 710-749): the count is capped at `fIOUnit`;
the payload bytes go into the request frame. -/
def writeOp (m : MState) (fid offset : Nat) (data : List Nat)
    (count : Nat) : MState × Status × Option Nat :=
  let toWrite := if count > m.client.iounit then m.client.iounit else count
  transact m
    (fun tag => buildWrite m.client.msize tag fid offset data toWrite)
    (typedHandle P9_RWRITE parseWrite)

/-- `P9Client::Clunk` (lines 752-776): acknowledge-only. -/
def clunkOp (m : MState) (fid : Nat) : MState × Status × Option Unit :=
  transact m (fun tag => buildClunk m.client.msize tag fid) ackHandle

/-- `P9Client::Remove` (lines 779-803): acknowledge-only. -/
def removeOp (m : MState) (fid : Nat) : MState × Status × Option Unit :=
  transact m (fun tag => buildRemove m.client.msize tag fid) ackHandle

/-- `P9Client::GetAttr` (lines 806-841). -/
def getattrOp (m : MState) (fid mask : Nat) :
    MState × Status × Option Attr :=
  transact m (fun tag => buildGetattr m.client.msize tag fid mask)
    (typedHandle P9_RGETATTR parseGetattr)

/-- `P9Client::SetAttr` (lines 844-871): acknowledge-only. -/
def setattrOp (m : MState) (fid valid mode uid gid size asec ansec msec
    mnsec : Nat) : MState × Status × Option Unit :=
  transact m
    (fun tag => buildSetattr m.client.msize tag fid valid mode uid gid size
      asec ansec msec mnsec)
    ackHandle

/-- `P9Client::ReadDir` (lines 874-917): like `Read`, with `Treaddir`. -/
def readdirOp (m : MState) (fid offset count : Nat) :
    MState × Status × Option (Nat × List Nat) :=
  let toRead := if count > m.client.iounit then m.client.iounit else count
  transact m
    (fun tag => buildReaddir m.client.msize tag fid offset toRead)
    (typedHandle P9_RREADDIR parseReaddir)

/-- Response handling of `Mkdir` and `Symlink`: `CheckError`, the
response-type check, then the qid parsed only when the caller passed a
qid out-parameter. -/
def qidOptHandle (expected : Nat) (wantQid : Bool)
    (parse : List Nat → Except Status Qid) (resp : List Nat) :
    Status × Option Qid :=
  let s := checkError resp
  if s = bOK then
    if respType resp ≠ expected then (bError, none)
    else if wantQid then
      match parse resp with
      | .error e => (e, none)
      | .ok q => (bOK, some q)
    else (bOK, none)
  else (s, none)

/-- `P9Client::Mkdir` (lines 920-959): the response qid is parsed only
when the caller passed a qid out-parameter. -/
def mkdirOp (m : MState) (dfid : Nat) (name : List Nat) (mode gid : Nat)
    (wantQid : Bool) : MState × Status × Option Qid :=
  transact m
    (fun tag => buildMkdir m.client.msize tag dfid name mode gid)
    (qidOptHandle P9_RMKDIR wantQid parseMkdir)

/-- `P9Client::Unlink` (lines 962-986): `Tunlinkat`, acknowledge-only. -/
def unlinkOp (m : MState) (dfid : Nat) (name : List Nat) (flags : Nat) :
    MState × Status × Option Unit :=
  transact m (fun tag => buildUnlinkat m.client.msize tag dfid name flags)
    ackHandle

/-- `P9Client::Rename` (lines 989-1014): `Trenameat`, acknowledge-only. -/
def renameOp (m : MState) (olddirfid : Nat) (oldname : List Nat)
    (newdirfid : Nat) (newname : List Nat) : MState × Status × Option Unit :=
  transact m
    (fun tag =>
      buildRenameat m.client.msize tag olddirfid oldname newdirfid newname)
    ackHandle

/-- `P9Client::StatFS` (lines 1017-1052). -/
def statfsOp (m : MState) (fid : Nat) : MState × Status × Option StatFS :=
  transact m (fun tag => buildStatfs m.client.msize tag fid)
    (typedHandle P9_RSTATFS parseStatfs)

/-- `P9Client::FSync` (lines 1055-1079): acknowledge-only. -/
def fsyncOp (m : MState) (fid : Nat) (dataOnly : Bool) :
    MState × Status × Option Unit :=
  transact m
    (fun tag => buildFsync m.client.msize tag fid (if dataOnly then 1 else 0))
    ackHandle

/-- `P9Client::ReadLink` (lines 1082-1117). -/
def readlinkOp (m : MState) (fid targetSize : Nat) :
    MState × Status × Option (List Nat) :=
  transact m (fun tag => buildReadlink m.client.msize tag fid)
    (typedHandle P9_RREADLINK (fun resp => parseReadlink resp targetSize))

/-- `P9Client::Symlink` (lines 1120-1159): qid parsed only on request. -/
def symlinkOp (m : MState) (dfid : Nat) (name target : List Nat)
    (gid : Nat) (wantQid : Bool) : MState × Status × Option Qid :=
  transact m
    (fun tag => buildSymlink m.client.msize tag dfid name target gid)
    (qidOptHandle P9_RSYMLINK wantQid parseSymlink)

/-- `P9Client::Link` (lines 1162-1187): acknowledge-only. -/
def linkOp (m : MState) (dfid fid : Nat) (name : List Nat) :
    MState × Status × Option Unit :=
  transact m (fun tag => buildLink m.client.msize tag dfid fid name)
    ackHandle

/-- "9P2000.L" as byte codes. -/
def verString : List Nat := [57, 80, 50, 48, 48, 48, 46, 76]

/-- The attach leg of `P9Client::Connect` (9p_client.cpp lines
308-369): allocate the root FID (`fRootFid` is assigned even when the
pool is exhausted), send `Tattach` with a freshly allocated tag, and on
any failure release the root FID; on success derive `fIOUnit` and set
the connected flag.  `cap` is the capacity of the reused request
message (the pre-negotiation `fMsize`). -/
def connectAttach (m : MState) (cap : Nat) (aname : List Nat) :
    MState × Status :=
  let a := m.client.fidPool.allocate P9_NOFID
  let m := { m with client :=
    { m.client with fidPool := a.2, rootFid := a.1 } }
  if m.client.rootFid = P9_NOFID then (m, bNoMemory)
  else
    let t := m.client.tagPool.allocate P9_NOTAG
    let attachTag := t.1
    let m := { m with client := { m.client with tagPool := t.2 } }
    let relFid := fun (m : MState) =>
      { m with client := { m.client with fidPool :=
        (m.client.fidPool.fidRelease m.client.rootFid) } }
    let relTag := fun (m : MState) =>
      { m with client := { m.client with tagPool :=
        (m.client.tagPool.tagRelease attachTag) } }
    match buildAttach cap attachTag m.client.rootFid P9_NOFID
        [] aname P9_NONUNAME with
    | .error e => (relFid (relTag m), e)
    | .ok frame2 =>
      let d2 := doRequest m frame2
      let m := relTag d2.1
      match d2.2 with
      | .error e => (relFid m, e)
      | .ok resp2 =>
        match parseHeader resp2 with
        | .error e => (relFid m, e)
        | .ok (_, ty2, _) =>
          if ty2 = P9_RLERROR then
            match parseLerror resp2 with
            | .ok errno => (relFid m, p9ErrorToHaiku errno)
            | .error e => (relFid m, e)
          else if ty2 ≠ P9_RATTACH then (relFid m, bError)
          else
            match parseAttach resp2 with
            | .error e => (relFid m, e)
            | .ok _ =>
              ({ m with client := { m.client with
                iounit := m.client.msize - P9_HEADER_SIZE - 4,
                connected := true } }, bOK)

/-- `P9Client::Connect` (9p_client.cpp lines 258-370), translated branch
for branch.  Leg 1: `Tversion(NOTAG, fMsize, "9P2000.L")`; the response
must be `Rversion`; the server msize is taken when smaller; any version
string other than "9P2000.L" is `B_NOT_SUPPORTED` (note: after the msize
update).  Leg 2: `connectAttach`. -/
def connectOp (m : MState) (aname : List Nat) : MState × Status :=
  if ¬ m.client.hasTransport then (m, bNoInit)
  else if m.client.connected then (m, bOK)
  else
    let cap := m.client.msize
    match buildVersion cap P9_NOTAG m.client.msize verString with
    | .error e => (m, e)
    | .ok frame =>
      let d := doRequest m frame
      let m := d.1
      match d.2 with
      | .error e => (m, e)
      | .ok resp =>
        match parseHeader resp with
        | .error e => (m, e)
        | .ok (_, ty, _) =>
          if ty ≠ P9_RVERSION then (m, bError)
          else
            match parseVersion resp with
            | .error e => (m, e)
            | .ok (serverMsize, version) =>
              let m := if serverMsize < m.client.msize then
                { m with client := { m.client with msize := serverMsize } }
                else m
              if version ≠ verString then (m, bNotSupported)
              else connectAttach m cap aname

/-! ## Inode layer (Inode.cpp) -/

/-- `Inode::WalkToChild` (Inode.cpp lines 734-751): allocate a child
FID, walk one name from the inode's FID; on failure release the child
FID. -/
def walkToChildOp (m : MState) (dirFid : Nat) (name : List Nat) :
    MState × Status × Option (Nat × Option Qid) :=
  let a := m.client.fidPool.allocate P9_NOFID
  let childFid := a.1
  let m1 : MState := { m with client := { m.client with fidPool := a.2 } }
  if childFid = P9_NOFID then (m1, bNoMemory, none)
  else
    let r := walkOp m1 dirFid childFid (some name) true
    if r.2.1 ≠ bOK then
      ({ r.1 with client := { r.1.client with fidPool :=
        (r.1.client.fidPool.fidRelease childFid) } }, r.2.1, none)
    else (r.1, bOK, some (childFid, r.2.2))

/-- `Inode::Read`'s accumulation loop (Inode.cpp lines 176-191), with
the `P9Client::Read` transaction abstracted to the count the server
returns for a `(offset, count)` request (`server off cnt`), after the
client-side cap of the request at `iounit` (9p_client.cpp lines
672-674).  The returned trace records each issued `Tread` as
`(offset, requested count)`.  The loop is driven by `fuel`; each
iteration of the C loop either breaks or strictly decreases `remaining`
as long as the server never replies with more bytes than requested, so
`fuel = remaining` at entry suffices (see `inodeReadOp`). -/
def readLoop (iounit : Nat) (server : Nat → Nat → Except Status Nat)
    (pos : Nat) : Nat → Nat → Nat → Except Status (Nat × List (Nat × Nat))
  | _, totalRead, 0 => .ok (totalRead, [])
  | remaining, totalRead, fuel + 1 =>
    if remaining = 0 then .ok (totalRead, [])
    else
      let toRead := if remaining > iounit then iounit else remaining
      let capped := if toRead > iounit then iounit else toRead
      match server (pos + totalRead) capped with
      | .error e => .error e
      | .ok reply =>
        if reply = 0 then .ok (totalRead, [(pos + totalRead, capped)])
        else
          match readLoop iounit server pos (remaining - reply)
              (totalRead + reply) fuel with
          | .error e => .error e
          | .ok (tot, trace) => .ok (tot, (pos + totalRead, capped) :: trace)

/-- `Inode::Read` (Inode.cpp lines 163-195): negative positions are
`B_BAD_VALUE`; otherwise the chunking loop. -/
def inodeReadOp (iounit : Nat) (server : Nat → Nat → Except Status Nat)
    (pos : Int) (length : Nat) : Except Status (Nat × List (Nat × Nat)) :=
  if pos < 0 then .error bBadValue
  else readLoop iounit server pos.toNat length 0 length

/-- `Inode::Write` (Inode.cpp lines 198-237): negative positions are
`B_BAD_VALUE`; a read-only volume is `B_READ_ONLY_DEVICE` before any
RPC; otherwise the same chunking loop as `Inode::Read` (the write
payload plays no role in the counts, so it is not carried). -/
def inodeWriteOp (readOnly : Bool) (iounit : Nat)
    (server : Nat → Nat → Except Status Nat) (pos : Int) (length : Nat) :
    Except Status (Nat × List (Nat × Nat)) :=
  if pos < 0 then .error bBadValue
  else if readOnly then .error bReadOnlyDevice
  else readLoop iounit server pos.toNat length 0 length

/-- `Inode::Remove` (Inode.cpp lines 461-474): directory check, then
read-only check, then `Unlinkat(fid, name, 0)`. -/
def inodeRemoveOp (isDir readOnly : Bool) (m : MState) (fid : Nat)
    (name : List Nat) : MState × Status :=
  if ¬ isDir then (m, bNotADirectory)
  else if readOnly then (m, bReadOnlyDevice)
  else
    let r := unlinkOp m fid name 0
    (r.1, r.2.1)

/-- `Inode::RemoveDir` (Inode.cpp lines 706-719): directory check, then
read-only check, then `Unlinkat(fid, name, 0x200)` (`AT_REMOVEDIR`). -/
def inodeRemoveDirOp (isDir readOnly : Bool) (m : MState) (fid : Nat)
    (name : List Nat) : MState × Status :=
  if ¬ isDir then (m, bNotADirectory)
  else if readOnly then (m, bReadOnlyDevice)
  else
    let r := unlinkOp m fid name 512
    (r.1, r.2.1)

/-- `Inode::Rename` (Inode.cpp lines 477-489): both ends must be
directories, then the read-only check, then `Trenameat`. -/
def inodeRenameOp (isDir toDirIsDir readOnly : Bool) (m : MState)
    (fid : Nat) (fromName : List Nat) (toFid : Nat) (toName : List Nat) :
    MState × Status :=
  if ¬ isDir ∨ ¬ toDirIsDir then (m, bNotADirectory)
  else if readOnly then (m, bReadOnlyDevice)
  else
    let r := renameOp m fid fromName toFid toName
    (r.1, r.2.1)

/-- `Inode::CreateDir` (Inode.cpp lines 690-703): directory check,
read-only check, then `Mkdir(fid, name, mode, 0)` with no qid
out-parameter (`haiku_mode_to_p9` is the identity). -/
def inodeCreateDirOp (isDir readOnly : Bool) (m : MState) (fid : Nat)
    (name : List Nat) (mode : Nat) : MState × Status :=
  if ¬ isDir then (m, bNotADirectory)
  else if readOnly then (m, bReadOnlyDevice)
  else
    let r := mkdirOp m fid name mode 0 false
    (r.1, r.2.1)

/-- `Inode::CreateSymlink` (Inode.cpp lines 676-687): directory check,
read-only check, then `Symlink(fid, name, target, 0)` with no qid
out-parameter. -/
def inodeCreateSymlinkOp (isDir readOnly : Bool) (m : MState) (fid : Nat)
    (name target : List Nat) : MState × Status :=
  if ¬ isDir then (m, bNotADirectory)
  else if readOnly then (m, bReadOnlyDevice)
  else
    let r := symlinkOp m fid name target 0 false
    (r.1, r.2.1)

/-- Haiku `B_STAT_*` mask bits used by `Inode::WriteStat`. -/
def B_STAT_MODE : Nat := 1
def B_STAT_UID : Nat := 2
def B_STAT_GID : Nat := 4
def B_STAT_SIZE : Nat := 8
def B_STAT_ACCESS_TIME : Nat := 16
def B_STAT_MODIFICATION_TIME : Nat := 32

/-- 9p.h `P9_SETATTR_*` valid bits. -/
def P9_SETATTR_MODE : Nat := 1
def P9_SETATTR_UID : Nat := 2
def P9_SETATTR_GID : Nat := 4
def P9_SETATTR_SIZE : Nat := 8
def P9_SETATTR_ATIME : Nat := 16
def P9_SETATTR_MTIME : Nat := 32
def P9_SETATTR_ATIME_SET : Nat := 128
def P9_SETATTR_MTIME_SET : Nat := 256

/-- The host `struct stat` fields `Inode::WriteStat` projects. -/
structure StatIn where
  mode : Nat
  uid : Nat
  gid : Nat
  size : Nat
  atime_sec : Nat
  atime_nsec : Nat
  mtime_sec : Nat
  mtime_nsec : Nat
  deriving DecidableEq, Repr

/-- `Inode::WriteStat` (Inode.cpp lines 278-335): the read-only check
comes first; then the `statMask` bits select the `P9_SETATTR` valid
bits and values for one `Tsetattr`. -/
def inodeWriteStatOp (readOnly : Bool) (m : MState) (fid : Nat)
    (stat : StatIn) (statMask : Nat) : MState × Status :=
  if readOnly then (m, bReadOnlyDevice)
  else
    let valid0 := 0
    let mode0 := 0
    let uid0 := 0
    let gid0 := 0
    let size0 := 0
    let v1 := if statMask &&& B_STAT_MODE ≠ 0 then
      (valid0 ||| P9_SETATTR_MODE, stat.mode) else (valid0, mode0)
    let v2 := if statMask &&& B_STAT_UID ≠ 0 then
      (v1.1 ||| P9_SETATTR_UID, stat.uid) else (v1.1, uid0)
    let v3 := if statMask &&& B_STAT_GID ≠ 0 then
      (v2.1 ||| P9_SETATTR_GID, stat.gid) else (v2.1, gid0)
    let v4 := if statMask &&& B_STAT_SIZE ≠ 0 then
      (v3.1 ||| P9_SETATTR_SIZE, stat.size) else (v3.1, size0)
    let v5 := if statMask &&& B_STAT_ACCESS_TIME ≠ 0 then
      (v4.1 ||| P9_SETATTR_ATIME ||| P9_SETATTR_ATIME_SET,
        stat.atime_sec, stat.atime_nsec) else (v4.1, 0, 0)
    let v6 := if statMask &&& B_STAT_MODIFICATION_TIME ≠ 0 then
      (v5.1 ||| P9_SETATTR_MTIME ||| P9_SETATTR_MTIME_SET,
        stat.mtime_sec, stat.mtime_nsec) else (v5.1, 0, 0)
    let r := setattrOp m fid v6.1 v1.2 v2.2 v3.2 v4.2
      v5.2.1 v5.2.2 v6.2.1 v6.2.2
    (r.1, r.2.1)

/-- `Inode::Create` (Inode.cpp lines 376-457): directory check,
read-only check; then clone the directory FID (`Walk` with a `NULL`
path), `Lcreate`, initialize the new inode (one `Tgetattr` issued with
the new inode's metadata FID, which `Inode::Create` sets to `P9_NOFID`),
and publish it (`publish_vnode` is host-VFS state, abstracted as the
`publish` status parameter).  Every failure clunks and releases the
cloned FID. -/
def inodeCreateOp (isDir readOnly : Bool) (m : MState) (dirFid : Nat)
    (name : List Nat) (flags mode : Nat) (publish : Status) :
    MState × Status × Option Nat :=
  if ¬ isDir then (m, bNotADirectory, none)
  else if readOnly then (m, bReadOnlyDevice, none)
  else
    let a := m.client.fidPool.allocate P9_NOFID
    let newFid := a.1
    let m : MState := { m with client := { m.client with fidPool := a.2 } }
    if newFid = P9_NOFID then (m, bNoMemory, none)
    else
      let relFid := fun (m : MState) =>
        { m with client := { m.client with fidPool :=
          (m.client.fidPool.fidRelease newFid) } }
      let w := walkOp m dirFid newFid none false
      if w.2.1 ≠ bOK then (relFid w.1, w.2.1, none)
      else
        let c := createOp w.1 newFid name flags mode 0
        match c.2.2 with
        | none =>
          let cl := clunkOp c.1 newFid
          (relFid cl.1, c.2.1, none)
        | some (qid, _) =>
          let g := getattrOp c.1 P9_NOFID 2047
          if g.2.1 ≠ bOK then
            let cl := clunkOp g.1 newFid
            (relFid cl.1, g.2.1, none)
          else if publish ≠ bOK then
            let cl := clunkOp g.1 newFid
            (relFid cl.1, publish, none)
          else (g.1, bOK, some qid.path)

/-! ## Volume mount-argument parsing (Volume.cpp lines 239-293) -/

/-- The two option values `Volume::_ParseArgs` stores. -/
structure VolArgs where
  mountTag : Option (List Nat)
  aname : Option (List Nat)
  deriving DecidableEq, Repr

/-- "tag" and "aname" as byte codes. -/
def optTagKey : List Nat := [116, 97, 103]
def optAnameKey : List Nat := [97, 110, 97, 109, 101]

/-- `strchr(opt, '=')` splitting: key before the first `'='`, value
after it (or no value when there is no `'='`; the C then stores NULL). -/
def splitEq (opt : List Nat) : List Nat × Option (List Nat) :=
  match opt.findIdx? (· = 61) with
  | none => (opt, none)
  | some i => (opt.take i, some (opt.drop (i + 1)))

/-- One `strtok_r` token of `Volume::_ParseArgs` (Volume.cpp lines
252-266): `tag` and `aname` are stored; every other key falls through
with no effect and no error. -/
def parseOneOpt (v : VolArgs) (opt : List Nat) : VolArgs :=
  let kv := splitEq opt
  if kv.1 = optTagKey then { v with mountTag := kv.2 }
  else if kv.1 = optAnameKey then { v with aname := kv.2 }
  else v

/-- `Volume::_ParseArgs` (lines 239-270): `NULL` args succeed with no
options; otherwise the comma-separated tokens are folded in order
(`strtok_r` skips empty tokens).  The function has no failure path for
unrecognized keys. -/
def parseArgs (v : VolArgs) (args : Option (List Nat)) : VolArgs :=
  match args with
  | none => v
  | some s => (splitSep 44 s).foldl parseOneOpt v

/-- The tag requirement of `Volume::_FindTransport` (lines 273-293):
a missing `tag` option is `B_BAD_VALUE` before any transport lookup. -/
def findTransportTagCheck (v : VolArgs) : Status :=
  if v.mountTag = none then bBadValue else bOK

/-! ## Pool and transaction lemmas -/

theorem allocate_cases (p : Pool) (s : Nat) :
    ((p.allocate s).1 < p.maxSlots
      ∧ (p.allocate s).2.maxSlots = p.maxSlots
      ∧ (p.allocate s).2.used = p.used.set (p.allocate s).1 true
      ∧ p.used.getD (p.allocate s).1 true = false)
    ∨ ((p.allocate s).1 = s ∧ (p.allocate s).2 = p) := by
  unfold Pool.allocate
  cases hf : (List.range p.maxSlots).find?
      (fun i => p.used.getD ((p.nextHint + i) % p.maxSlots) true == false) with
  | none => right; exact ⟨rfl, rfl⟩
  | some i =>
    left
    have hi : i ∈ List.range p.maxSlots := List.mem_of_find?_eq_some hf
    have hilt : i < p.maxSlots := List.mem_range.mp hi
    have hpos : 0 < p.maxSlots := by omega
    have hmod : (p.nextHint + i) % p.maxSlots < p.maxSlots :=
      Nat.mod_lt _ hpos
    have hpred := List.find?_some hf
    simp only [beq_iff_eq] at hpred
    exact ⟨hmod, rfl, rfl, hpred⟩

theorem fidRelease_getD (p : Pool) (f : Nat)
    (hlen : p.used.length = p.maxSlots) :
    (p.fidRelease f).used.getD f false = false := by
  unfold Pool.fidRelease
  by_cases h : f ≥ p.maxSlots
  · simp only [h, if_true]
    exact List.getD_eq_default _ _ (by omega)
  · simp only [h, if_false]
    have hf : f < p.used.length := by omega
    rw [List.getD_eq_getElem?_getD, List.getElem?_set_eq_of_lt _ hf]
    rfl

theorem tagRelease_getD (p : Pool) (t : Nat)
    (hlen : p.used.length = p.maxSlots)
    (hmax : p.maxSlots ≤ 65535) :
    (p.tagRelease t).used.getD t false = false := by
  unfold Pool.tagRelease
  by_cases h : t ≥ p.maxSlots ∨ t = P9_NOTAG
  · simp only [h, if_true]
    have : p.maxSlots ≤ t := by
      rcases h with h | h
      · omega
      · rw [h]; unfold P9_NOTAG; omega
    exact List.getD_eq_default _ _ (by omega)
  · simp only [h, if_false]
    push_neg at h
    have hf : t < p.used.length := by omega
    rw [List.getD_eq_getElem?_getD, List.getElem?_set_eq_of_lt _ hf]
    rfl

theorem allocate_len (p : Pool) (s : Nat)
    (hlen : p.used.length = p.maxSlots) :
    (p.allocate s).2.used.length = (p.allocate s).2.maxSlots := by
  rcases allocate_cases p s with ⟨_, h2, h3, _⟩ | ⟨_, h2⟩
  · rw [h2, h3, List.length_set]; exact hlen
  · rw [h2]; exact hlen

theorem allocate_maxSlots (p : Pool) (s : Nat) :
    (p.allocate s).2.maxSlots = p.maxSlots := by
  rcases allocate_cases p s with ⟨_, h2, _, _⟩ | ⟨_, h2⟩
  · exact h2
  · rw [h2]

theorem doRequest_client (m : MState) (frame : List Nat) :
    (doRequest m frame).1.client = m.client := by
  unfold doRequest
  cases m.resps with
  | nil => rfl
  | cons r rest => cases r <;> rfl

theorem doRequest_fst (m : MState) (frame : List Nat) :
    (doRequest m frame).1
      = { m with sent := m.sent ++ [frame], resps := m.resps.tail } := by
  unfold doRequest
  cases m.resps with
  | nil => rfl
  | cons r rest => cases r <;> rfl

/-- In every branch of the operation skeleton, the final tag pool is the
allocated pool with the allocated tag released. -/
theorem transact_fst_tagPool {α : Type} (m : MState)
    (build : Nat → Except Status (List Nat))
    (handle : List Nat → Status × Option α) :
    (transact m build handle).1.client.tagPool
      = (m.client.tagPool.allocate P9_NOTAG).2.tagRelease
          (m.client.tagPool.allocate P9_NOTAG).1 := by
  simp only [transact]
  cases hb : build (m.client.tagPool.allocate P9_NOTAG).1 with
  | error e => simp [hb]
  | ok frame =>
    simp only [hb]
    cases hd : (doRequest { m with client :=
        { m.client with tagPool :=
          (m.client.tagPool.allocate P9_NOTAG).2 } } frame).2 with
    | error e => simp [hd, doRequest_client]
    | ok resp => simp [hd, doRequest_client]

/-- `transact` never touches the FID pool. -/
theorem transact_fst_fidPool {α : Type} (m : MState)
    (build : Nat → Except Status (List Nat))
    (handle : List Nat → Status × Option α) :
    (transact m build handle).1.client.fidPool = m.client.fidPool := by
  simp only [transact]
  cases hb : build (m.client.tagPool.allocate P9_NOTAG).1 with
  | error e => simp [hb]
  | ok frame =>
    simp only [hb]
    cases hd : (doRequest { m with client :=
        { m.client with tagPool :=
          (m.client.tagPool.allocate P9_NOTAG).2 } } frame).2 with
    | error e => simp [hd, doRequest_client]
    | ok resp => simp [hd, doRequest_client]

/-- When the oracle delivers a frame and the request builds, the
operation's status and result are exactly the handler's. -/
theorem transact_deliver {α : Type} (m : MState)
    (build : Nat → Except Status (List Nat))
    (handle : List Nat → Status × Option α) (resp : List Nat)
    (rest : List DoResult)
    (hr : m.resps = DoResult.deliver resp :: rest)
    (hb : ∃ f, build (m.client.tagPool.allocate P9_NOTAG).1 = Except.ok f) :
    (transact m build handle).2 = handle resp := by
  obtain ⟨f, hf⟩ := hb
  simp [transact, hf, doRequest, hr]

/-- The allocated tag is free in the final tag pool, whatever the oracle
does and however the build goes. -/
theorem transact_tag_free {α : Type} (m : MState)
    (build : Nat → Except Status (List Nat))
    (handle : List Nat → Status × Option α)
    (hlen : m.client.tagPool.used.length = m.client.tagPool.maxSlots)
    (hmax : m.client.tagPool.maxSlots ≤ 65535) :
    (transact m build handle).1.client.tagPool.used.getD
      (m.client.tagPool.allocate P9_NOTAG).1 false = false := by
  rw [transact_fst_tagPool]
  exact tagRelease_getD _ _ (allocate_len _ _ hlen)
    (by rw [allocate_maxSlots]; exact hmax)

/-! ## Codec round-trip lemmas (for the build/parse pairing) -/

theorem bindOk {e a b : Type} (x : a) (f : a → Except e b) :
    (Except.ok x >>= f) = f x := rfl

theorem bindErr {e a b : Type} (x : e) (f : a → Except e b) :
    ((Except.error x : Except e a) >>= f) = Except.error x := rfl

theorem readUint8_at (pre suf : List Nat) (v : Nat) (hv : v < 256) :
    RBuf.readUint8 { data := pre ++ v :: suf, readPos := pre.length }
      = .ok (v, { data := pre ++ v :: suf, readPos := pre.length + 1 }) := by
  unfold RBuf.readUint8
  rw [if_neg (by simp only [List.length_append, List.length_cons]; omega)]
  have hg : (pre ++ v :: suf).getD pre.length 0 = v := by
    rw [List.getD_eq_getElem?_getD, List.getElem?_append_right (Nat.le_refl _)]
    simp
  rw [hg, Nat.mod_eq_of_lt hv]

theorem readUint16_at (pre suf : List Nat) (v : Nat) (hv : v < 65536) :
    RBuf.readUint16 { data := pre ++ leBytes 2 v ++ suf, readPos := pre.length }
      = .ok (v,
        { data := pre ++ leBytes 2 v ++ suf, readPos := pre.length + 2 }) := by
  unfold RBuf.readUint16
  rw [if_neg (by simp only [List.length_append, leBytes_length]; omega)]
  have hs : (((pre ++ (leBytes 2 v ++ suf)).drop pre.length).take 2)
      = leBytes 2 v := by
    rw [List.drop_left]
    exact List.take_left' (leBytes_length 2 v)
  simp only [← List.append_assoc] at hs
  rw [hs, leVal_leBytes]
  norm_num [Nat.mod_eq_of_lt hv]

theorem readUint32_at (pre suf : List Nat) (v : Nat) (hv : v < 4294967296) :
    RBuf.readUint32 { data := pre ++ leBytes 4 v ++ suf, readPos := pre.length }
      = .ok (v,
        { data := pre ++ leBytes 4 v ++ suf, readPos := pre.length + 4 }) := by
  unfold RBuf.readUint32
  rw [if_neg (by simp only [List.length_append, leBytes_length]; omega)]
  have hs : (((pre ++ (leBytes 4 v ++ suf)).drop pre.length).take 4)
      = leBytes 4 v := by
    rw [List.drop_left]
    exact List.take_left' (leBytes_length 4 v)
  simp only [← List.append_assoc] at hs
  rw [hs, leVal_leBytes]
  norm_num [Nat.mod_eq_of_lt hv]

theorem readUint64_at (pre suf : List Nat) (v : Nat)
    (hv : v < 18446744073709551616) :
    RBuf.readUint64 { data := pre ++ leBytes 8 v ++ suf, readPos := pre.length }
      = .ok (v,
        { data := pre ++ leBytes 8 v ++ suf, readPos := pre.length + 8 }) := by
  unfold RBuf.readUint64
  rw [if_neg (by simp only [List.length_append, leBytes_length]; omega)]
  have hs : (((pre ++ (leBytes 8 v ++ suf)).drop pre.length).take 8)
      = leBytes 8 v := by
    rw [List.drop_left]
    exact List.take_left' (leBytes_length 8 v)
  simp only [← List.append_assoc] at hs
  rw [hs, leVal_leBytes]
  norm_num [Nat.mod_eq_of_lt hv]

theorem readUint8_pos (d : List Nat) (pos : Nat) (pre suf : List Nat)
    (v : Nat) (hv : v < 256) (hd : d = pre ++ v :: suf)
    (hp : pos = pre.length) :
    RBuf.readUint8 { data := d, readPos := pos }
      = .ok (v, { data := d, readPos := pos + 1 }) := by
  subst hd hp
  exact readUint8_at pre suf v hv

theorem readUint16_pos (d : List Nat) (pos : Nat) (pre suf : List Nat)
    (v : Nat) (hv : v < 65536) (hd : d = pre ++ leBytes 2 v ++ suf)
    (hp : pos = pre.length) :
    RBuf.readUint16 { data := d, readPos := pos }
      = .ok (v, { data := d, readPos := pos + 2 }) := by
  subst hd hp
  exact readUint16_at pre suf v hv

theorem readUint32_pos (d : List Nat) (pos : Nat) (pre suf : List Nat)
    (v : Nat) (hv : v < 4294967296) (hd : d = pre ++ leBytes 4 v ++ suf)
    (hp : pos = pre.length) :
    RBuf.readUint32 { data := d, readPos := pos }
      = .ok (v, { data := d, readPos := pos + 4 }) := by
  subst hd hp
  exact readUint32_at pre suf v hv

theorem readUint64_pos (d : List Nat) (pos : Nat) (pre suf : List Nat)
    (v : Nat) (hv : v < 18446744073709551616)
    (hd : d = pre ++ leBytes 8 v ++ suf) (hp : pos = pre.length) :
    RBuf.readUint64 { data := d, readPos := pos }
      = .ok (v, { data := d, readPos := pos + 8 }) := by
  subst hd hp
  exact readUint64_at pre suf v hv

theorem readString_at (pre suf s : List Nat) (bufferSize : Nat)
    (hs : s.length < 65536) (hbs : s.length < bufferSize) :
    RBuf.readString
      { data := pre ++ leBytes 2 s.length ++ (s ++ suf),
        readPos := pre.length } bufferSize
      = .ok (s, { data := pre ++ leBytes 2 s.length ++ (s ++ suf),
                  readPos := pre.length + 2 + s.length }) := by
  unfold RBuf.readString
  rw [readUint16_at pre (s ++ suf) s.length hs]
  simp only [bindOk]
  rw [if_neg (by
    simp only [List.length_append, leBytes_length]
    omega)]
  rw [if_neg (by omega)]
  have h1 : (pre ++ leBytes 2 s.length).length = pre.length + 2 := by
    simp [List.length_append, leBytes_length]
  have hd : (pre ++ leBytes 2 s.length ++ (s ++ suf)).drop
      (pre.length + 2) = s ++ suf := List.drop_left' h1
  rw [hd, List.take_left' rfl]

theorem readString_pos (d : List Nat) (pos : Nat) (pre suf s : List Nat)
    (bufferSize : Nat) (hs : s.length < 65536) (hbs : s.length < bufferSize)
    (hd : d = pre ++ leBytes 2 s.length ++ (s ++ suf))
    (hp : pos = pre.length) :
    RBuf.readString { data := d, readPos := pos } bufferSize
      = .ok (s, { data := d, readPos := pos + 2 + s.length }) := by
  subst hd hp
  exact readString_at pre suf s bufferSize hs hbs

theorem readQid_at (pre suf : List Nat) (q : Qid) (h1 : q.type < 256)
    (h2 : q.version < 4294967296) (h3 : q.path < 18446744073709551616) :
    RBuf.readQid
      { data := pre ++ (q.type ::
          (leBytes 4 q.version ++ (leBytes 8 q.path ++ suf))),
        readPos := pre.length }
      = .ok (q, { data := pre ++ (q.type ::
                    (leBytes 4 q.version ++ (leBytes 8 q.path ++ suf))),
                  readPos := pre.length + 13 }) := by
  unfold RBuf.readQid
  rw [readUint8_pos _ _ pre
    (leBytes 4 q.version ++ (leBytes 8 q.path ++ suf)) q.type h1 rfl rfl]
  simp only [bindOk]
  rw [readUint32_pos _ _ (pre ++ [q.type]) (leBytes 8 q.path ++ suf)
    q.version h2 (by simp) (by simp)]
  simp only [bindOk]
  rw [readUint64_pos _ _ ((pre ++ [q.type]) ++ leBytes 4 q.version) suf
    q.path h3 (by simp) (by simp [leBytes_length])]
  simp only [bindOk, Except.ok.injEq]

theorem readQid_pos (d : List Nat) (pos : Nat) (pre suf : List Nat) (q : Qid)
    (h1 : q.type < 256) (h2 : q.version < 4294967296)
    (h3 : q.path < 18446744073709551616)
    (hd : d = pre ++ (q.type ::
      (leBytes 4 q.version ++ (leBytes 8 q.path ++ suf))))
    (hp : pos = pre.length) :
    RBuf.readQid { data := d, readPos := pos }
      = .ok (q, { data := d, readPos := pos + 13 }) := by
  subst hd hp
  exact readQid_at pre suf q h1 h2 h3

theorem writeUint8_data (b : WBuf) (v : Nat) (b' : WBuf)
    (hw : b.writeUint8 v = .ok b') :
    b'.cap = b.cap ∧ b'.data = b.data ++ [v % 256] := by
  unfold WBuf.writeUint8 at hw
  split at hw
  · exact absurd hw (by simp)
  · injection hw with h
    subst h
    exact ⟨rfl, rfl⟩

theorem writeUint16_data (b : WBuf) (v : Nat) (b' : WBuf)
    (hw : b.writeUint16 v = .ok b') :
    b'.cap = b.cap ∧ b'.data = b.data ++ leBytes 2 v := by
  unfold WBuf.writeUint16 at hw
  split at hw
  · exact absurd hw (by simp)
  · injection hw with h
    subst h
    exact ⟨rfl, rfl⟩

theorem writeUint32_data (b : WBuf) (v : Nat) (b' : WBuf)
    (hw : b.writeUint32 v = .ok b') :
    b'.cap = b.cap ∧ b'.data = b.data ++ leBytes 4 v := by
  unfold WBuf.writeUint32 at hw
  split at hw
  · exact absurd hw (by simp)
  · injection hw with h
    subst h
    exact ⟨rfl, rfl⟩

theorem writeUint64_data (b : WBuf) (v : Nat) (b' : WBuf)
    (hw : b.writeUint64 v = .ok b') :
    b'.cap = b.cap ∧ b'.data = b.data ++ leBytes 8 v := by
  unfold WBuf.writeUint64 at hw
  split at hw
  · exact absurd hw (by simp)
  · injection hw with h
    subst h
    exact ⟨rfl, rfl⟩

theorem writeString_data (b : WBuf) (s : List Nat) (b' : WBuf)
    (hw : b.writeString s = .ok b') :
    b'.cap = b.cap ∧ b'.data = b.data
      ++ leBytes 2 (s.length % 65536) ++ s.take (s.length % 65536) := by
  unfold WBuf.writeString at hw
  split at hw
  · exact absurd hw (by simp)
  · injection hw with h
    subst h
    refine ⟨rfl, ?_⟩
    simp [List.append_assoc]

theorem writeQid_data (b : WBuf) (q : Qid) (b' : WBuf)
    (hw : b.writeQid q = .ok b') :
    b'.cap = b.cap ∧ b'.data = b.data
      ++ (q.type % 256 :: (leBytes 4 q.version ++ leBytes 8 q.path)) := by
  unfold WBuf.writeQid at hw
  cases h8 : b.writeUint8 q.type with
  | error e => rw [h8, bindErr] at hw; exact absurd hw (by simp)
  | ok b1 =>
    rw [h8] at hw
    simp only [bindOk] at hw
    cases h32 : b1.writeUint32 q.version with
    | error e => rw [h32, bindErr] at hw; exact absurd hw (by simp)
    | ok b2 =>
      rw [h32] at hw
      simp only [bindOk] at hw
      obtain ⟨hc1, hd1⟩ := writeUint8_data b q.type b1 h8
      obtain ⟨hc2, hd2⟩ := writeUint32_data b1 q.version b2 h32
      obtain ⟨hc3, hd3⟩ := writeUint64_data b2 q.path b' hw
      refine ⟨by rw [hc3, hc2, hc1], ?_⟩
      rw [hd3, hd2, hd1]
      simp [List.append_assoc]

/-- The concrete `Tversion` frame for the message-level round trip. -/
def versionFrame : List Nat :=
  [21, 0, 0, 0, 100, 255, 255, 0, 32, 0, 0, 8, 0,
   57, 80, 50, 48, 48, 48, 46, 76]

/-- C7: for every `P9Buffer` codec pair and valid value, round-trip
identity holds: each `WriteUint8/16/32/64`-`ReadUint8/16/32/64`,
`WriteString`-`ReadString` and `WriteQid`-`ReadQid` pair reads back the
written value from the write position; multi-byte integers are
little-endian (witnessed by the byte image of `0x12345678`); and a
built message parses back to its fields (`BuildVersion` then
`ReadHeader`/`ParseVersion`). -/
theorem claim_C7 :
    (∀ (b b' : WBuf) (v : Nat), v < 256 → b.writeUint8 v = .ok b' →
      RBuf.readUint8 { data := b'.data, readPos := b.data.length }
        = .ok (v, { data := b'.data, readPos := b.data.length + 1 }))
    ∧ (∀ (b b' : WBuf) (v : Nat), v < 65536 → b.writeUint16 v = .ok b' →
      RBuf.readUint16 { data := b'.data, readPos := b.data.length }
        = .ok (v, { data := b'.data, readPos := b.data.length + 2 }))
    ∧ (∀ (b b' : WBuf) (v : Nat), v < 4294967296 →
      b.writeUint32 v = .ok b' →
      RBuf.readUint32 { data := b'.data, readPos := b.data.length }
        = .ok (v, { data := b'.data, readPos := b.data.length + 4 }))
    ∧ (∀ (b b' : WBuf) (v : Nat), v < 18446744073709551616 →
      b.writeUint64 v = .ok b' →
      RBuf.readUint64 { data := b'.data, readPos := b.data.length }
        = .ok (v, { data := b'.data, readPos := b.data.length + 8 }))
    ∧ (∀ (b b' : WBuf) (s : List Nat) (bufferSize : Nat),
      s.length < 65536 → s.length < bufferSize →
      b.writeString s = .ok b' →
      RBuf.readString { data := b'.data, readPos := b.data.length } bufferSize
        = .ok (s,
          { data := b'.data, readPos := b.data.length + 2 + s.length }))
    ∧ (∀ (b b' : WBuf) (q : Qid), q.type < 256 → q.version < 4294967296 →
      q.path < 18446744073709551616 → b.writeQid q = .ok b' →
      RBuf.readQid { data := b'.data, readPos := b.data.length }
        = .ok (q, { data := b'.data, readPos := b.data.length + 13 }))
    ∧ WBuf.writeUint32 ⟨8, []⟩ 305419896 = .ok ⟨8, [120, 86, 52, 18]⟩
    ∧ buildVersion 8192 65535 8192 verString = .ok versionFrame
    ∧ parseHeader versionFrame = .ok (21, 100, 65535)
    ∧ parseVersion versionFrame = .ok (8192, verString) := by
  refine ⟨?_, ?_, ?_, ?_, ?_, ?_, ?_, ?_, ?_, ?_⟩
  · intro b b' v hv hw
    obtain ⟨_, hdata⟩ := writeUint8_data b v b' hw
    exact readUint8_pos b'.data b.data.length b.data [] v hv
      (by rw [hdata, Nat.mod_eq_of_lt hv]) rfl
  · intro b b' v hv hw
    obtain ⟨_, hdata⟩ := writeUint16_data b v b' hw
    exact readUint16_pos b'.data b.data.length b.data [] v hv
      (by rw [hdata]; simp) rfl
  · intro b b' v hv hw
    obtain ⟨_, hdata⟩ := writeUint32_data b v b' hw
    exact readUint32_pos b'.data b.data.length b.data [] v hv
      (by rw [hdata]; simp) rfl
  · intro b b' v hv hw
    obtain ⟨_, hdata⟩ := writeUint64_data b v b' hw
    exact readUint64_pos b'.data b.data.length b.data [] v hv
      (by rw [hdata]; simp) rfl
  · intro b b' s bufferSize hs hbs hw
    obtain ⟨_, hdata⟩ := writeString_data b s b' hw
    exact readString_pos b'.data b.data.length b.data [] s bufferSize hs hbs
      (by rw [hdata, Nat.mod_eq_of_lt hs, List.take_length]; simp) rfl
  · intro b b' q h1 h2 h3 hw
    obtain ⟨_, hdata⟩ := writeQid_data b q b' hw
    exact readQid_pos b'.data b.data.length b.data [] q h1 h2 h3
      (by rw [hdata, Nat.mod_eq_of_lt h1]; simp) rfl
  · decide
  · decide
  · decide
  · decide

/-- Witness for C7 at concrete inputs: writing `0x1234` into a fresh
two-byte buffer and reading it back, via the theorem itself. -/
theorem claim_C7_witness :
    RBuf.readUint16 { data := [52, 18], readPos := 0 }
      = .ok (4660, { data := [52, 18], readPos := 2 }) := by
  have h := claim_C7.2.1 ⟨2, []⟩ ⟨2, [52, 18]⟩ 4660 (by norm_num) (by decide)
  simpa using h

/-! ## Response-type handling lemmas (claim C1) -/

theorem parseHeader_cons (a b c d e f g : Nat) (rest : List Nat) :
    parseHeader (a :: b :: c :: d :: e :: f :: g :: rest)
      = .ok (leVal [a, b, c, d], e % 256, leVal [f, g]) := by
  simp [parseHeader, RBuf.readUint32, RBuf.readUint8, RBuf.readUint16]
  rw [if_neg (by omega)]
  simp only [bindOk]
  rw [if_neg (by simp)]
  simp only [bindOk]
  rw [if_neg (by simp)]
  simp only [bindOk]
  simp [List.getD]

theorem respType_cons (a b c d e f g : Nat) (rest : List Nat) :
    respType (a :: b :: c :: d :: e :: f :: g :: rest) = e % 256 := rfl

theorem checkError_cons (a b c d e f g : Nat) (rest : List Nat)
    (hne7 : e % 256 ≠ 7) :
    checkError (a :: b :: c :: d :: e :: f :: g :: rest) = bOK := by
  unfold checkError
  rw [parseHeader_cons]
  simp only [P9_RLERROR]
  rw [if_neg hne7]

theorem typedHandle_wrongType {α : Type} (expected : Nat)
    (parse : List Nat → Except Status α) (a b c d e f g : Nat)
    (rest : List Nat) (hne7 : e % 256 ≠ 7) (hneE : e % 256 ≠ expected) :
    typedHandle expected parse (a :: b :: c :: d :: e :: f :: g :: rest)
      = (bError, none) := by
  unfold typedHandle
  rw [checkError_cons a b c d e f g rest hne7]
  rw [if_pos rfl, respType_cons, if_pos hneE]

theorem qidOptHandle_wrongType (expected : Nat) (wantQid : Bool)
    (parse : List Nat → Except Status Qid) (a b c d e f g : Nat)
    (rest : List Nat) (hne7 : e % 256 ≠ 7) (hneE : e % 256 ≠ expected) :
    qidOptHandle expected wantQid parse
        (a :: b :: c :: d :: e :: f :: g :: rest)
      = (bError, none) := by
  unfold qidOptHandle
  rw [checkError_cons a b c d e f g rest hne7]
  rw [if_pos rfl, respType_cons, if_pos hneE]

theorem ackHandle_ok (a b c d e f g : Nat) (rest : List Nat)
    (hne7 : e % 256 ≠ 7) :
    ackHandle (a :: b :: c :: d :: e :: f :: g :: rest) = (bOK, none) := by
  unfold ackHandle
  rw [checkError_cons a b c d e f g rest hne7]

/-- A connected client state with fresh pools, for concrete runs. -/
def connSt (resps : List DoResult) : MState :=
  ⟨⟨true, 8192, 8181, 1, true, Pool.fidInit 256, Pool.tagInit 256⟩,
    resps, []⟩

/-- C1 (amended): when the oracle delivers a response frame whose type
byte is neither `Rlerror` nor the operation's expected R-code, the
operations with a typed response payload (Walk, Open, Create, Read,
Write, GetAttr, ReadDir, Mkdir, StatFS, ReadLink, Symlink) fail with
the protocol-violation error `B_ERROR`, while the acknowledge-only
operations (Clunk, Remove, SetAttr, Unlink, Rename, FSync, Link) check
only for `Rlerror` and return success on any other response type. -/
theorem claim_C1 (m : MState) (a b c d e f g : Nat) (rest0 : List Nat)
    (oracleRest : List DoResult)
    (hm : m.client.msize = 8192)
    (hr : m.resps = DoResult.deliver
      (a :: b :: c :: d :: e :: f :: g :: rest0) :: oracleRest)
    (hne7 : e % 256 ≠ P9_RLERROR) :
    (∀ fid newfid, e % 256 ≠ P9_RWALK →
      (walkPathOp m fid newfid [[97]]).2.1 = bError)
    ∧ (∀ fid flags, e % 256 ≠ P9_RLOPEN →
      (openOp m fid flags).2.1 = bError)
    ∧ (∀ fid flags mode gid, e % 256 ≠ P9_RLCREATE →
      (createOp m fid [97] flags mode gid).2.1 = bError)
    ∧ (∀ fid off cnt, e % 256 ≠ P9_RREAD →
      (readOp m fid off cnt).2.1 = bError)
    ∧ (∀ fid off, e % 256 ≠ P9_RWRITE →
      (writeOp m fid off [] 0).2.1 = bError)
    ∧ (∀ fid mask, e % 256 ≠ P9_RGETATTR →
      (getattrOp m fid mask).2.1 = bError)
    ∧ (∀ fid off cnt, e % 256 ≠ P9_RREADDIR →
      (readdirOp m fid off cnt).2.1 = bError)
    ∧ (∀ dfid mode gid wantQid, e % 256 ≠ P9_RMKDIR →
      (mkdirOp m dfid [97] mode gid wantQid).2.1 = bError)
    ∧ (∀ fid, e % 256 ≠ P9_RSTATFS →
      (statfsOp m fid).2.1 = bError)
    ∧ (∀ fid tsz, e % 256 ≠ P9_RREADLINK →
      (readlinkOp m fid tsz).2.1 = bError)
    ∧ (∀ dfid gid wantQid, e % 256 ≠ P9_RSYMLINK →
      (symlinkOp m dfid [97] [98] gid wantQid).2.1 = bError)
    ∧ (∀ fid, (clunkOp m fid).2.1 = bOK)
    ∧ (∀ fid, (removeOp m fid).2.1 = bOK)
    ∧ (∀ fid valid mode uid gid size a1 a2 m1 m2,
      (setattrOp m fid valid mode uid gid size a1 a2 m1 m2).2.1 = bOK)
    ∧ (∀ dfid flags, (unlinkOp m dfid [97] flags).2.1 = bOK)
    ∧ (∀ f1 f2, (renameOp m f1 [97] f2 [98]).2.1 = bOK)
    ∧ (∀ fid dataOnly, (fsyncOp m fid dataOnly).2.1 = bOK)
    ∧ (∀ dfid fid, (linkOp m dfid fid [97]).2.1 = bOK) := by
  refine ⟨?_, ?_, ?_, ?_, ?_, ?_, ?_, ?_, ?_, ?_, ?_, ?_, ?_, ?_, ?_, ?_,
    ?_, ?_⟩
  · intro fid newfid hneE
    have h := transact_deliver m
      (fun tag => buildWalk m.client.msize tag fid newfid [[97]])
      (typedHandle P9_RWALK (fun r => parseWalk r ([[97]] :
        List (List Nat)).length))
      (a :: b :: c :: d :: e :: f :: g :: rest0) oracleRest hr
      ⟨_, by rw [hm]; rfl⟩
    have h2 : (walkPathOp m fid newfid [[97]]).2
        = typedHandle P9_RWALK (fun r => parseWalk r ([[97]] :
          List (List Nat)).length)
          (a :: b :: c :: d :: e :: f :: g :: rest0) := h
    rw [h2, typedHandle_wrongType _ _ a b c d e f g rest0 hne7 hneE]
  · intro fid flags hneE
    have h := transact_deliver m
      (fun tag => buildLopen m.client.msize tag fid flags)
      (typedHandle P9_RLOPEN parseLopen)
      (a :: b :: c :: d :: e :: f :: g :: rest0) oracleRest hr
      ⟨_, by rw [hm]; rfl⟩
    have h2 : (openOp m fid flags).2.1
        = (typedHandle P9_RLOPEN parseLopen
          (a :: b :: c :: d :: e :: f :: g :: rest0)).1 := by
      show (transact m (fun tag => buildLopen m.client.msize tag fid flags)
        (typedHandle P9_RLOPEN parseLopen)).2.1 = _
      rw [h]
    rw [h2, typedHandle_wrongType _ _ a b c d e f g rest0 hne7 hneE]
  · intro fid flags mode gid hneE
    have h := transact_deliver m
      (fun tag => buildLcreate m.client.msize tag fid [97] flags mode gid)
      (typedHandle P9_RLCREATE parseLcreate)
      (a :: b :: c :: d :: e :: f :: g :: rest0) oracleRest hr
      ⟨_, by rw [hm]; rfl⟩
    have h2 : (createOp m fid [97] flags mode gid).2.1
        = (typedHandle P9_RLCREATE parseLcreate
          (a :: b :: c :: d :: e :: f :: g :: rest0)).1 := by
      show (transact m
        (fun tag => buildLcreate m.client.msize tag fid [97] flags mode gid)
        (typedHandle P9_RLCREATE parseLcreate)).2.1 = _
      rw [h]
    rw [h2, typedHandle_wrongType _ _ a b c d e f g rest0 hne7 hneE]
  · intro fid off cnt hneE
    have h := transact_deliver m
      (fun tag => buildRead m.client.msize tag fid off
        (if cnt > m.client.iounit then m.client.iounit else cnt))
      (typedHandle P9_RREAD parseRead)
      (a :: b :: c :: d :: e :: f :: g :: rest0) oracleRest hr
      ⟨_, by rw [hm]; rfl⟩
    have h2 : (readOp m fid off cnt).2
        = typedHandle P9_RREAD parseRead
          (a :: b :: c :: d :: e :: f :: g :: rest0) := h
    rw [h2, typedHandle_wrongType _ _ a b c d e f g rest0 hne7 hneE]
  · intro fid off hneE
    have h := transact_deliver m
      (fun tag => buildWrite m.client.msize tag fid off []
        (if 0 > m.client.iounit then m.client.iounit else 0))
      (typedHandle P9_RWRITE parseWrite)
      (a :: b :: c :: d :: e :: f :: g :: rest0) oracleRest hr
      ⟨_, by rw [hm, if_neg (Nat.not_lt_zero _)]; rfl⟩
    have h2 : (writeOp m fid off [] 0).2
        = typedHandle P9_RWRITE parseWrite
          (a :: b :: c :: d :: e :: f :: g :: rest0) := h
    rw [h2, typedHandle_wrongType _ _ a b c d e f g rest0 hne7 hneE]
  · intro fid mask hneE
    have h := transact_deliver m
      (fun tag => buildGetattr m.client.msize tag fid mask)
      (typedHandle P9_RGETATTR parseGetattr)
      (a :: b :: c :: d :: e :: f :: g :: rest0) oracleRest hr
      ⟨_, by rw [hm]; rfl⟩
    have h2 : (getattrOp m fid mask).2
        = typedHandle P9_RGETATTR parseGetattr
          (a :: b :: c :: d :: e :: f :: g :: rest0) := h
    rw [h2, typedHandle_wrongType _ _ a b c d e f g rest0 hne7 hneE]
  · intro fid off cnt hneE
    have h := transact_deliver m
      (fun tag => buildReaddir m.client.msize tag fid off
        (if cnt > m.client.iounit then m.client.iounit else cnt))
      (typedHandle P9_RREADDIR parseReaddir)
      (a :: b :: c :: d :: e :: f :: g :: rest0) oracleRest hr
      ⟨_, by rw [hm]; rfl⟩
    have h2 : (readdirOp m fid off cnt).2
        = typedHandle P9_RREADDIR parseReaddir
          (a :: b :: c :: d :: e :: f :: g :: rest0) := h
    rw [h2, typedHandle_wrongType _ _ a b c d e f g rest0 hne7 hneE]
  · intro dfid mode gid wantQid hneE
    have h := transact_deliver m
      (fun tag => buildMkdir m.client.msize tag dfid [97] mode gid)
      (qidOptHandle P9_RMKDIR wantQid parseMkdir)
      (a :: b :: c :: d :: e :: f :: g :: rest0) oracleRest hr
      ⟨_, by rw [hm]; rfl⟩
    have h2 : (mkdirOp m dfid [97] mode gid wantQid).2
        = qidOptHandle P9_RMKDIR wantQid parseMkdir
          (a :: b :: c :: d :: e :: f :: g :: rest0) := h
    rw [h2, qidOptHandle_wrongType _ _ _ a b c d e f g rest0 hne7 hneE]
  · intro fid hneE
    have h := transact_deliver m
      (fun tag => buildStatfs m.client.msize tag fid)
      (typedHandle P9_RSTATFS parseStatfs)
      (a :: b :: c :: d :: e :: f :: g :: rest0) oracleRest hr
      ⟨_, by rw [hm]; rfl⟩
    have h2 : (statfsOp m fid).2
        = typedHandle P9_RSTATFS parseStatfs
          (a :: b :: c :: d :: e :: f :: g :: rest0) := h
    rw [h2, typedHandle_wrongType _ _ a b c d e f g rest0 hne7 hneE]
  · intro fid tsz hneE
    have h := transact_deliver m
      (fun tag => buildReadlink m.client.msize tag fid)
      (typedHandle P9_RREADLINK (fun r => parseReadlink r tsz))
      (a :: b :: c :: d :: e :: f :: g :: rest0) oracleRest hr
      ⟨_, by rw [hm]; rfl⟩
    have h2 : (readlinkOp m fid tsz).2
        = typedHandle P9_RREADLINK (fun r => parseReadlink r tsz)
          (a :: b :: c :: d :: e :: f :: g :: rest0) := h
    rw [h2, typedHandle_wrongType _ _ a b c d e f g rest0 hne7 hneE]
  · intro dfid gid wantQid hneE
    have h := transact_deliver m
      (fun tag => buildSymlink m.client.msize tag dfid [97] [98] gid)
      (qidOptHandle P9_RSYMLINK wantQid parseSymlink)
      (a :: b :: c :: d :: e :: f :: g :: rest0) oracleRest hr
      ⟨_, by rw [hm]; rfl⟩
    have h2 : (symlinkOp m dfid [97] [98] gid wantQid).2
        = qidOptHandle P9_RSYMLINK wantQid parseSymlink
          (a :: b :: c :: d :: e :: f :: g :: rest0) := h
    rw [h2, qidOptHandle_wrongType _ _ _ a b c d e f g rest0 hne7 hneE]
  · intro fid
    have h := transact_deliver m
      (fun tag => buildClunk m.client.msize tag fid) ackHandle
      (a :: b :: c :: d :: e :: f :: g :: rest0) oracleRest hr
      ⟨_, by rw [hm]; rfl⟩
    have h2 : (clunkOp m fid).2 = ackHandle
      (a :: b :: c :: d :: e :: f :: g :: rest0) := h
    rw [h2, ackHandle_ok a b c d e f g rest0 hne7]
  · intro fid
    have h := transact_deliver m
      (fun tag => buildRemove m.client.msize tag fid) ackHandle
      (a :: b :: c :: d :: e :: f :: g :: rest0) oracleRest hr
      ⟨_, by rw [hm]; rfl⟩
    have h2 : (removeOp m fid).2 = ackHandle
      (a :: b :: c :: d :: e :: f :: g :: rest0) := h
    rw [h2, ackHandle_ok a b c d e f g rest0 hne7]
  · intro fid valid mode uid gid size a1 a2 m1 m2
    have h := transact_deliver m
      (fun tag => buildSetattr m.client.msize tag fid valid mode uid gid
        size a1 a2 m1 m2) ackHandle
      (a :: b :: c :: d :: e :: f :: g :: rest0) oracleRest hr
      ⟨_, by rw [hm]; rfl⟩
    have h2 : (setattrOp m fid valid mode uid gid size a1 a2 m1 m2).2
        = ackHandle (a :: b :: c :: d :: e :: f :: g :: rest0) := h
    rw [h2, ackHandle_ok a b c d e f g rest0 hne7]
  · intro dfid flags
    have h := transact_deliver m
      (fun tag => buildUnlinkat m.client.msize tag dfid [97] flags) ackHandle
      (a :: b :: c :: d :: e :: f :: g :: rest0) oracleRest hr
      ⟨_, by rw [hm]; rfl⟩
    have h2 : (unlinkOp m dfid [97] flags).2 = ackHandle
      (a :: b :: c :: d :: e :: f :: g :: rest0) := h
    rw [h2, ackHandle_ok a b c d e f g rest0 hne7]
  · intro f1 f2
    have h := transact_deliver m
      (fun tag => buildRenameat m.client.msize tag f1 [97] f2 [98]) ackHandle
      (a :: b :: c :: d :: e :: f :: g :: rest0) oracleRest hr
      ⟨_, by rw [hm]; rfl⟩
    have h2 : (renameOp m f1 [97] f2 [98]).2 = ackHandle
      (a :: b :: c :: d :: e :: f :: g :: rest0) := h
    rw [h2, ackHandle_ok a b c d e f g rest0 hne7]
  · intro fid dataOnly
    have h := transact_deliver m
      (fun tag => buildFsync m.client.msize tag fid
        (if dataOnly then 1 else 0)) ackHandle
      (a :: b :: c :: d :: e :: f :: g :: rest0) oracleRest hr
      ⟨_, by rw [hm]; rfl⟩
    have h2 : (fsyncOp m fid dataOnly).2 = ackHandle
      (a :: b :: c :: d :: e :: f :: g :: rest0) := h
    rw [h2, ackHandle_ok a b c d e f g rest0 hne7]
  · intro dfid fid
    have h := transact_deliver m
      (fun tag => buildLink m.client.msize tag dfid fid [97]) ackHandle
      (a :: b :: c :: d :: e :: f :: g :: rest0) oracleRest hr
      ⟨_, by rw [hm]; rfl⟩
    have h2 : (linkOp m dfid fid [97]).2 = ackHandle
      (a :: b :: c :: d :: e :: f :: g :: rest0) := h
    rw [h2, ackHandle_ok a b c d e f g rest0 hne7]

/-- C1 counterexample: a `Tclunk` transaction answered by a frame of
type 99 — neither `Rclunk` (121) nor `Rlerror` (7) — returns `B_OK`:
`P9Client::Clunk` never checks the response type, so the claim fails
for the acknowledge-only operations. -/
theorem claim_C1_counterexample :
    respType [7, 0, 0, 0, 99, 0, 0] = 99
    ∧ (99 : Nat) ≠ P9_RCLUNK ∧ (99 : Nat) ≠ P9_RLERROR
    ∧ (clunkOp (connSt [DoResult.deliver [7, 0, 0, 0, 99, 0, 0]]) 5).2.1
      = bOK := by
  refine ⟨rfl, by decide, by decide, ?_⟩
  decide

/-- Witness for C1 at a concrete type-99 response: `WalkPath` (a typed
operation) does return the protocol-violation error there. -/
theorem claim_C1_witness :
    (walkPathOp (connSt [DoResult.deliver [7, 0, 0, 0, 99, 0, 0]]) 1 2
      [[97]]).2.1 = bError := by
  have h := claim_C1 (connSt [DoResult.deliver [7, 0, 0, 0, 99, 0, 0]])
    7 0 0 0 99 0 0 [] [] rfl rfl (by decide)
  exact h.1 1 2 (by decide)

/-! ## Connect (claims C2, C8, C10) -/

/-- A freshly initialized client (`P9Client::Init` with default pools),
not yet connected. -/
def initSt (msize : Nat) (resps : List DoResult) : MState :=
  ⟨⟨true, msize, 0, 0, false, Pool.fidInit 256, Pool.tagInit 256⟩,
    resps, []⟩

/-- A well-formed `Rversion(msize = 8192, version = "9P2000.L")` frame. -/
def rvFrame : List Nat :=
  [21, 0, 0, 0, 101, 255, 255, 0, 32, 0, 0, 8, 0,
   57, 80, 50, 48, 48, 48, 46, 76]

/-- A well-formed `Rattach` frame with qid `(type 0x80, ver 0, path 1)`. -/
def raFrame : List Nat :=
  [20, 0, 0, 0, 105, 0, 0, 128, 0, 0, 0, 0, 1, 0, 0, 0, 0, 0, 0, 0]

/-- C2 (claim is right, code is wrong): `FidPool::Init` does reserve
slot 0 ("used for root after attach"), but `Connect` then obtains the
root FID from `Allocate()`, which skips the reserved slot — so after a
successful `Connect` the root FID is 1, not 0, and slot 0 stays
reserved but unused. -/
theorem claim_C2 :
    (Pool.fidInit 256).used.getD 0 false = true
    ∧ (connectOp (initSt 8192
        [DoResult.deliver rvFrame, DoResult.deliver raFrame]) []).2 = bOK
    ∧ (connectOp (initSt 8192
        [DoResult.deliver rvFrame, DoResult.deliver raFrame])
        []).1.client.rootFid = 1
    ∧ (1 : Nat) ≠ 0 := by
  refine ⟨by decide, ?_, ?_, by decide⟩
  · decide
  · decide

/-- C10: calling `Connect` on an already-connected client (with a
transport, as every connected client has) returns `B_OK` immediately
with the entire client state unchanged — nothing is sent, and msize,
iounit, root FID, connected flag and both pools are untouched. -/
theorem claim_C10 (m : MState) (aname : List Nat)
    (ht : m.client.hasTransport = true) (hc : m.client.connected = true) :
    connectOp m aname = (m, bOK) := by
  unfold connectOp
  rw [ht, hc]
  simp

/-- Witness for C10 at a concrete connected client. -/
theorem claim_C10_witness : connectOp (connSt []) [] = (connSt [], bOK) :=
  claim_C10 (connSt []) [] rfl rfl

/-- C8 (scenario S1): a client proposing msize 65536 that receives
`Rversion(msize = 8192, version = "9P2000.L")` and a successful
`Rattach` ends `Connect` with `B_OK`, msize 8192 (the minimum of the
two), iounit 8181 (= msize − 7-byte header − 4-byte count field), and
the connected flag set. -/
theorem claim_C8 :
    (connectOp (initSt 65536
        [DoResult.deliver rvFrame, DoResult.deliver raFrame]) []).2 = bOK
    ∧ (connectOp (initSt 65536
        [DoResult.deliver rvFrame, DoResult.deliver raFrame])
        []).1.client.msize = 8192
    ∧ (connectOp (initSt 65536
        [DoResult.deliver rvFrame, DoResult.deliver raFrame])
        []).1.client.iounit = 8181
    ∧ (connectOp (initSt 65536
        [DoResult.deliver rvFrame, DoResult.deliver raFrame])
        []).1.client.connected = true
    ∧ (8192 : Nat) = min 65536 8192
    ∧ (8181 : Nat) = 8192 - P9_HEADER_SIZE - 4 := by
  refine ⟨?_, ?_, ?_, ?_, by decide, by decide⟩
  · decide
  · decide
  · decide
  · decide

/-! ## Tag lifecycle (claim C4) -/

theorem allocate_fst_free (p : Pool) (s : Nat)
    (hlen : p.used.length = p.maxSlots) (hs : p.maxSlots ≤ s) :
    p.used.getD (p.allocate s).1 false = false := by
  rcases allocate_cases p s with ⟨hlt, _, _, hfree⟩ | ⟨hse, _⟩
  · rw [List.getD_eq_getElem?_getD] at hfree ⊢
    cases hx : p.used[(p.allocate s).1]? with
    | none => simp
    | some v => rw [hx] at hfree; simpa using hfree
  · rw [hse]
    exact List.getD_eq_default _ _ (by omega)

/-- `connectAttach` releases the attach tag on every path. -/
theorem attach_tag_free (m : MState) (cap : Nat) (aname : List Nat)
    (hlen : m.client.tagPool.used.length = m.client.tagPool.maxSlots)
    (hmax : m.client.tagPool.maxSlots ≤ 65535) :
    (connectAttach m cap aname).1.client.tagPool.used.getD
      (m.client.tagPool.allocate P9_NOTAG).1 false = false := by
  have hfree := allocate_fst_free m.client.tagPool P9_NOTAG hlen
    (by unfold P9_NOTAG; omega)
  have hrel : ∀ p : Pool, p = (m.client.tagPool.allocate P9_NOTAG).2 →
      (p.tagRelease (m.client.tagPool.allocate P9_NOTAG).1).used.getD
        (m.client.tagPool.allocate P9_NOTAG).1 false = false := by
    intro p hp
    subst hp
    exact tagRelease_getD _ _ (allocate_len _ _ hlen)
      (by rw [allocate_maxSlots]; exact hmax)
  unfold connectAttach
  dsimp only
  repeat' split
  all_goals try simp only [doRequest_fst]
  all_goals first
    | exact hfree
    | exact hrel _ rfl

/-- `Connect` releases the attach tag on every path (the version
transaction uses the literal `P9_NOTAG` and allocates nothing). -/
theorem connect_tag_free (m : MState) (aname : List Nat)
    (hlen : m.client.tagPool.used.length = m.client.tagPool.maxSlots)
    (hmax : m.client.tagPool.maxSlots ≤ 65535) :
    (connectOp m aname).1.client.tagPool.used.getD
      (m.client.tagPool.allocate P9_NOTAG).1 false = false := by
  have hfree := allocate_fst_free m.client.tagPool P9_NOTAG hlen
    (by unfold P9_NOTAG; omega)
  unfold connectOp
  dsimp only
  repeat' split
  all_goals try simp only [doRequest_fst]
  all_goals first
    | exact hfree
    | exact attach_tag_free _ _ _ hlen hmax

/-- C4: every client operation that allocates a tag has released it by
the time it returns, on every path — build failure, transport failure
(`xfail`), any delivered response (`Rlerror`, wrong type, or success):
the allocated tag's slot is free in the final tag pool, for every
oracle behavior.  The two well-formedness hypotheses state what
`TagPool::Init` guarantees: the bitmap covers `maxTags` slots and
`maxTags` fits in the `uint16` tag space. -/
theorem claim_C4 (m : MState)
    (hlen : m.client.tagPool.used.length = m.client.tagPool.maxSlots)
    (hmax : m.client.tagPool.maxSlots ≤ 65535) :
    (∀ fid newfid wnames,
      (walkPathOp m fid newfid wnames).1.client.tagPool.used.getD
        (m.client.tagPool.allocate P9_NOTAG).1 false = false)
    ∧ (∀ fid flags, (openOp m fid flags).1.client.tagPool.used.getD
        (m.client.tagPool.allocate P9_NOTAG).1 false = false)
    ∧ (∀ fid name flags mode gid,
      (createOp m fid name flags mode gid).1.client.tagPool.used.getD
        (m.client.tagPool.allocate P9_NOTAG).1 false = false)
    ∧ (∀ fid off cnt, (readOp m fid off cnt).1.client.tagPool.used.getD
        (m.client.tagPool.allocate P9_NOTAG).1 false = false)
    ∧ (∀ fid off data cnt,
      (writeOp m fid off data cnt).1.client.tagPool.used.getD
        (m.client.tagPool.allocate P9_NOTAG).1 false = false)
    ∧ (∀ fid, (clunkOp m fid).1.client.tagPool.used.getD
        (m.client.tagPool.allocate P9_NOTAG).1 false = false)
    ∧ (∀ fid, (removeOp m fid).1.client.tagPool.used.getD
        (m.client.tagPool.allocate P9_NOTAG).1 false = false)
    ∧ (∀ fid mask, (getattrOp m fid mask).1.client.tagPool.used.getD
        (m.client.tagPool.allocate P9_NOTAG).1 false = false)
    ∧ (∀ fid valid mode uid gid size a1 a2 m1 m2,
      (setattrOp m fid valid mode uid gid size a1 a2 m1
        m2).1.client.tagPool.used.getD
        (m.client.tagPool.allocate P9_NOTAG).1 false = false)
    ∧ (∀ fid off cnt, (readdirOp m fid off cnt).1.client.tagPool.used.getD
        (m.client.tagPool.allocate P9_NOTAG).1 false = false)
    ∧ (∀ dfid name mode gid wantQid,
      (mkdirOp m dfid name mode gid wantQid).1.client.tagPool.used.getD
        (m.client.tagPool.allocate P9_NOTAG).1 false = false)
    ∧ (∀ dfid name flags,
      (unlinkOp m dfid name flags).1.client.tagPool.used.getD
        (m.client.tagPool.allocate P9_NOTAG).1 false = false)
    ∧ (∀ f1 n1 f2 n2, (renameOp m f1 n1 f2 n2).1.client.tagPool.used.getD
        (m.client.tagPool.allocate P9_NOTAG).1 false = false)
    ∧ (∀ fid, (statfsOp m fid).1.client.tagPool.used.getD
        (m.client.tagPool.allocate P9_NOTAG).1 false = false)
    ∧ (∀ fid dataOnly, (fsyncOp m fid dataOnly).1.client.tagPool.used.getD
        (m.client.tagPool.allocate P9_NOTAG).1 false = false)
    ∧ (∀ fid tsz, (readlinkOp m fid tsz).1.client.tagPool.used.getD
        (m.client.tagPool.allocate P9_NOTAG).1 false = false)
    ∧ (∀ dfid name target gid wantQid,
      (symlinkOp m dfid name target gid wantQid).1.client.tagPool.used.getD
        (m.client.tagPool.allocate P9_NOTAG).1 false = false)
    ∧ (∀ dfid fid name, (linkOp m dfid fid name).1.client.tagPool.used.getD
        (m.client.tagPool.allocate P9_NOTAG).1 false = false)
    ∧ (∀ aname, (connectOp m aname).1.client.tagPool.used.getD
        (m.client.tagPool.allocate P9_NOTAG).1 false = false) := by
  refine ⟨?_, ?_, ?_, ?_, ?_, ?_, ?_, ?_, ?_, ?_, ?_, ?_, ?_, ?_, ?_, ?_,
    ?_, ?_, ?_⟩
  · intro fid newfid wnames
    exact transact_tag_free m _ _ hlen hmax
  · intro fid flags
    exact transact_tag_free m _ _ hlen hmax
  · intro fid name flags mode gid
    exact transact_tag_free m _ _ hlen hmax
  · intro fid off cnt
    exact transact_tag_free m _ _ hlen hmax
  · intro fid off data cnt
    exact transact_tag_free m _ _ hlen hmax
  · intro fid
    exact transact_tag_free m _ _ hlen hmax
  · intro fid
    exact transact_tag_free m _ _ hlen hmax
  · intro fid mask
    exact transact_tag_free m _ _ hlen hmax
  · intro fid valid mode uid gid size a1 a2 m1 m2
    exact transact_tag_free m _ _ hlen hmax
  · intro fid off cnt
    exact transact_tag_free m _ _ hlen hmax
  · intro dfid name mode gid wantQid
    exact transact_tag_free m _ _ hlen hmax
  · intro dfid name flags
    exact transact_tag_free m _ _ hlen hmax
  · intro f1 n1 f2 n2
    exact transact_tag_free m _ _ hlen hmax
  · intro fid
    exact transact_tag_free m _ _ hlen hmax
  · intro fid dataOnly
    exact transact_tag_free m _ _ hlen hmax
  · intro fid tsz
    exact transact_tag_free m _ _ hlen hmax
  · intro dfid name target gid wantQid
    exact transact_tag_free m _ _ hlen hmax
  · intro dfid fid name
    exact transact_tag_free m _ _ hlen hmax
  · intro aname
    exact connect_tag_free m aname hlen hmax

set_option maxRecDepth 4096 in
/-- Witness for C4: in the concrete connected state the first free tag
is 0, and after a `Clunk` whose oracle delivers a type-99 frame, tag 0
is free again. -/
theorem claim_C4_witness :
    ((clunkOp (connSt [DoResult.deliver [7, 0, 0, 0, 99, 0, 0]])
      5).1.client.tagPool.used.getD
      ((connSt []).client.tagPool.allocate P9_NOTAG).1 false = false) := by
  have h := claim_C4 (connSt [DoResult.deliver [7, 0, 0, 0, 99, 0, 0]])
    (by decide) (by decide)
  exact h.2.2.2.2.2.1 5

/-! ## Partial walk (claim C3) -/

theorem typedHandle_parsed {α : Type} (expected : Nat)
    (parse : List Nat → Except Status α) (a b c d e f g : Nat)
    (rest : List Nat) (v : α) (hne7 : e % 256 ≠ 7)
    (hE : e % 256 = expected)
    (hp : parse (a :: b :: c :: d :: e :: f :: g :: rest) = .ok v) :
    typedHandle expected parse (a :: b :: c :: d :: e :: f :: g :: rest)
      = (bOK, some v) := by
  unfold typedHandle
  rw [checkError_cons a b c d e f g rest hne7]
  rw [if_pos rfl, respType_cons, hE, if_neg (by simp), hp]

theorem claim_C3_aux (m : MState) (dirFid cf : Nat) (a b c d e f g : Nat)
    (rest0 : List Nat) (oracleRest : List DoResult) (nwq : Nat)
    (qids : List Qid)
    (hm : m.client.msize = 8192)
    (hr : m.resps = DoResult.deliver
      (a :: b :: c :: d :: e :: f :: g :: rest0) :: oracleRest)
    (hne7 : e % 256 ≠ P9_RLERROR) (hE : e % 256 = P9_RWALK)
    (hpw : parseWalk (a :: b :: c :: d :: e :: f :: g :: rest0) 2
      = .ok (nwq, qids))
    (hlt : nwq < 2) :
    (walkOp m dirFid cf (some [97, 47, 98]) true).2.1 = bEntryNotFound
    ∧ (walkOp m dirFid cf (some [97, 47, 98]) true).1
      = (walkPathOp m dirFid cf [[97], [98]]).1 := by
  have hwp : (walkPathOp m dirFid cf [[97], [98]]).2
      = typedHandle P9_RWALK
        (fun r => parseWalk r ([[97], [98]] : List (List Nat)).length)
        (a :: b :: c :: d :: e :: f :: g :: rest0) :=
    transact_deliver m _ _ _ oracleRest hr ⟨_, by rw [hm]; rfl⟩
  have hth : typedHandle P9_RWALK
      (fun r => parseWalk r ([[97], [98]] : List (List Nat)).length)
      (a :: b :: c :: d :: e :: f :: g :: rest0)
      = (bOK, some (nwq, qids)) :=
    typedHandle_parsed P9_RWALK _ a b c d e f g rest0 (nwq, qids) hne7 hE hpw
  have h2 : (walkPathOp m dirFid cf [[97], [98]]).2 = (bOK, some (nwq, qids))
    := by rw [hwp, hth]
  have h22 : (walkPathOp m dirFid cf [[97], [98]]).2.2 = some (nwq, qids) :=
    by rw [h2]
  have h21 : (walkPathOp m dirFid cf [[97], [98]]).2.1 = bOK := by rw [h2]
  have hcomps : splitSep 47 [97, 47, 98] = [[97], [98]] := rfl
  have hne2 : nwq ≠ 2 := Nat.ne_of_lt hlt
  constructor
  · show (walkOp m dirFid cf (some [97, 47, 98]) true).2.1 = bEntryNotFound
    unfold walkOp
    dsimp only
    rw [if_neg (by decide), hcomps]
    rw [if_neg (by decide)]
    simp only [List.length_cons, List.length_nil, List.length_singleton]
    norm_num
    rw [h22]
    dsimp only
    rw [h21]
    rw [if_pos ⟨rfl, hne2⟩]
  · show (walkOp m dirFid cf (some [97, 47, 98]) true).1
      = (walkPathOp m dirFid cf [[97], [98]]).1
    unfold walkOp
    dsimp only
    rw [if_neg (by decide), hcomps]
    rw [if_neg (by decide)]
    simp only [List.length_cons, List.length_nil, List.length_singleton]
    norm_num
    rw [h22]

theorem walkPathOp_fidPool (m : MState) (fid newfid : Nat)
    (wnames : List (List Nat)) :
    (walkPathOp m fid newfid wnames).1.client.fidPool
      = m.client.fidPool :=
  transact_fst_fidPool _ _ _

/-- C3: when the single `Twalk` of a `WalkToChild` lookup completes
with a successful `Rwalk` carrying `nwqid < nwname`, the caller gets
`B_ENTRY_NOT_FOUND` (no child handle), and the freshly allocated child
FID's slot is free again in the final FID pool. -/
theorem claim_C3 (m : MState) (dirFid : Nat) (a b c d e f g : Nat)
    (rest0 : List Nat) (oracleRest : List DoResult) (nwq : Nat)
    (qids : List Qid)
    (hm : m.client.msize = 8192)
    (hflen : m.client.fidPool.used.length = m.client.fidPool.maxSlots)
    (hnofid : (m.client.fidPool.allocate P9_NOFID).1 ≠ P9_NOFID)
    (hr : m.resps = DoResult.deliver
      (a :: b :: c :: d :: e :: f :: g :: rest0) :: oracleRest)
    (hne7 : e % 256 ≠ P9_RLERROR) (hE : e % 256 = P9_RWALK)
    (hpw : parseWalk (a :: b :: c :: d :: e :: f :: g :: rest0) 2
      = .ok (nwq, qids))
    (hlt : nwq < 2) :
    (walkToChildOp m dirFid [97, 47, 98]).2.1 = bEntryNotFound
    ∧ (walkToChildOp m dirFid [97, 47, 98]).2.2 = none
    ∧ (walkToChildOp m dirFid [97, 47, 98]).1.client.fidPool.used.getD
        (m.client.fidPool.allocate P9_NOFID).1 false = false := by
  unfold walkToChildOp
  dsimp only
  rw [if_neg hnofid]
  obtain ⟨ha1, ha2⟩ := claim_C3_aux
    { m with client := { m.client with
        fidPool := (m.client.fidPool.allocate P9_NOFID).2 } }
    dirFid (m.client.fidPool.allocate P9_NOFID).1 a b c d e f g rest0
    oracleRest nwq qids hm hr hne7 hE hpw hlt
  rw [ha1]
  rw [if_pos (by decide)]
  refine ⟨rfl, rfl, ?_⟩
  dsimp only
  rw [ha2, walkPathOp_fidPool]
  exact fidRelease_getD _ _ (allocate_len _ _ hflen)

set_option maxRecDepth 8192 in
/-- Witness for C3: a concrete two-component walk answered with
`Rwalk(nwqid = 0)` surfaces `B_ENTRY_NOT_FOUND`. -/
theorem claim_C3_witness :
    (walkToChildOp (connSt [DoResult.deliver [9, 0, 0, 0, 111, 0, 0, 0, 0]])
      1 [97, 47, 98]).2.1 = bEntryNotFound := by
  have h := claim_C3 (connSt [DoResult.deliver [9, 0, 0, 0, 111, 0, 0, 0, 0]])
    1 9 0 0 0 111 0 0 [0, 0] [] 0 [] rfl (by decide) (by decide) rfl
    (by decide) (by decide) (by decide) (by decide)
  exact h.1

/-! ## Read chunking (claim C5) -/

theorem readLoop_le (iounit : Nat) (server : Nat → Nat → Except Status Nat)
    (hs : ∀ o c r, server o c = .ok r → r ≤ c) (pos : Nat) :
    ∀ fuel rem tot t tr,
      readLoop iounit server pos rem tot fuel = .ok (t, tr) →
      t ≤ tot + rem := by
  intro fuel
  induction fuel with
  | zero =>
    intro rem tot t tr h
    simp only [readLoop] at h
    injection h with h
    injection h with h1 h2
    omega
  | succ fuel ih =>
    intro rem tot t tr h
    simp only [readLoop] at h
    by_cases hrem : rem = 0
    · rw [if_pos hrem] at h
      injection h with h
      injection h with h1 h2
      omega
    · rw [if_neg hrem] at h
      cases hserv : server (pos + tot)
          (if (if rem > iounit then iounit else rem) > iounit then iounit
            else if rem > iounit then iounit else rem) with
      | error e =>
        rw [hserv] at h
        dsimp only at h
        exact absurd h (by simp)
      | ok reply =>
        rw [hserv] at h
        dsimp only at h
        have hreply : reply ≤ rem := by
          have := hs _ _ _ hserv
          by_cases h1 : rem > iounit <;> simp [h1] at this <;> omega
        by_cases hz : reply = 0
        · rw [if_pos hz] at h
          injection h with h
          injection h with h1 h2
          omega
        · rw [if_neg hz] at h
          cases hrec : readLoop iounit server pos (rem - reply)
              (tot + reply) fuel with
          | error e =>
            rw [hrec] at h
            exact absurd h (by simp)
          | ok p =>
            rw [hrec] at h
            dsimp only at h
            injection h with h
            injection h with h1 h2
            have := ih (rem - reply) (tot + reply) p.1 p.2 (by rw [hrec])
            omega

theorem readLoop_trace_le (iounit : Nat)
    (server : Nat → Nat → Except Status Nat) (pos : Nat) :
    ∀ fuel rem tot t tr,
      readLoop iounit server pos rem tot fuel = .ok (t, tr) →
      ∀ x : Nat × Nat, x ∈ tr → x.2 ≤ iounit := by
  intro fuel
  induction fuel with
  | zero =>
    intro rem tot t tr h x hx
    simp only [readLoop] at h
    injection h with h
    injection h with h1 h2
    subst h2
    exact absurd hx (List.not_mem_nil x)
  | succ fuel ih =>
    intro rem tot t tr h x hx
    simp only [readLoop] at h
    by_cases hrem : rem = 0
    · rw [if_pos hrem] at h
      injection h with h
      injection h with h1 h2
      subst h2
      exact absurd hx (List.not_mem_nil x)
    · rw [if_neg hrem] at h
      cases hserv : server (pos + tot)
          (if (if rem > iounit then iounit else rem) > iounit then iounit
            else if rem > iounit then iounit else rem) with
      | error e =>
        rw [hserv] at h
        dsimp only at h
        exact absurd h (by simp)
      | ok reply =>
        rw [hserv] at h
        dsimp only at h
        have hcap : (if (if rem > iounit then iounit else rem) > iounit
            then iounit else if rem > iounit then iounit else rem)
            ≤ iounit := by
          by_cases h1 : rem > iounit
          · simp [h1]
          · simp [h1]
            omega
        by_cases hz : reply = 0
        · rw [if_pos hz] at h
          injection h with h
          injection h with h1 h2
          subst h2
          rcases List.mem_singleton.mp hx with hx2
          rw [hx2]
          exact hcap
        · rw [if_neg hz] at h
          cases hrec : readLoop iounit server pos (rem - reply)
              (tot + reply) fuel with
          | error e =>
            rw [hrec] at h
            exact absurd h (by simp)
          | ok p =>
            rw [hrec] at h
            dsimp only at h
            injection h with h
            injection h with h1 h2
            subst h2
            rcases List.mem_cons.mp hx with hx2 | hx2
            · rw [hx2]
              exact hcap
            · exact ih (rem - reply) (tot + reply) p.1 p.2 (by rw [hrec])
                x hx2

/-- C5 (amended): for every `Inode::Read` of length `L` at position `pos`
that succeeds against a server whose replies never exceed the requested
count, the returned count `R` satisfies `R ≤ L`, and every `Tread` issued
by the loop requests at most `iounit` bytes; moreover in the concrete
scenario `L = 12000`, offset 0, `iounit = 4096`, exactly three `Tread`
RPCs go out, at offsets 0, 4096, 8192 with counts 4096, 4096, 3808, and
the accumulated return is 12000. (The original claim's further statement
that a short nonzero reply ends the loop is refuted by
the counterexample: only a zero reply, a server error, or exhaustion of
the remaining count ends it.) -/
theorem claim_C5 (iounit : Nat) (server : Nat → Nat → Except Status Nat)
    (pos : Int) (L tot : Nat) (tr : List (Nat × Nat))
    (hs : ∀ o c r, server o c = .ok r → r ≤ c)
    (h : inodeReadOp iounit server pos L = .ok (tot, tr)) :
    tot ≤ L ∧ (∀ x : Nat × Nat, x ∈ tr → x.2 ≤ iounit)
    ∧ inodeReadOp 4096 (fun off cnt => .ok (min cnt (12000 - off))) 0 12000
      = .ok (12000, [(0, 4096), (4096, 4096), (8192, 3808)]) := by
  unfold inodeReadOp at h
  split at h
  · exact absurd h (by simp)
  · refine ⟨?_, ?_, by decide⟩
    · have := readLoop_le iounit server hs pos.toNat L L 0 tot tr h
      omega
    · exact readLoop_trace_le iounit server pos.toNat L L 0 tot tr h

/-- C5 witness: the amended theorem applied to the concrete
12000-byte/iounit-4096 scenario server. -/
theorem claim_C5_witness :
    12000 ≤ 12000
    ∧ (∀ x : Nat × Nat,
        x ∈ [((0 : Nat), (4096 : Nat)), (4096, 4096), (8192, 3808)] →
        x.2 ≤ 4096)
    ∧ inodeReadOp 4096 (fun off cnt => .ok (min cnt (12000 - off))) 0 12000
      = .ok (12000, [(0, 4096), (4096, 4096), (8192, 3808)]) :=
  claim_C5 4096 (fun off cnt => .ok (min cnt (12000 - off))) 0 12000 12000
    [(0, 4096), (4096, 4096), (8192, 3808)]
    (fun _ c _ hr => by injection hr with hr; omega)
    (by decide)

/-- C5 counterexample: a server that always replies 100 bytes (a short
but nonzero reply to every request). Against it, `Inode::Read` of 300
bytes at offset 0 does NOT stop after the first short reply: the loop
keeps issuing requests — three RPCs at offsets 0, 100, 200 requesting
300, 200, 100 bytes — and returns 300, not the 100 that
"a short reply ends the loop with the accumulated count" would give. -/
theorem claim_C5_counterexample :
    inodeReadOp 4096 (fun _ _ => .ok 100) 0 300
      = .ok (300, [(0, 300), (100, 200), (200, 100)])
    ∧ inodeReadOp 4096 (fun _ _ => .ok 100) 0 300
      ≠ .ok (100, [(0, 300)]) := by
  refine ⟨by decide, by decide⟩

/-- C6: with the read-only mount flag set, every mutating inode
operation — `Write`, `Create`, `Remove`, `Rename`, `CreateDir`,
`RemoveDir`, `CreateSymlink`, `WriteStat` — returns
`B_READ_ONLY_DEVICE` with the machine state returned exactly as it was
given (no FID allocated, no request built or sent, no response
consumed).  The hypotheses are the validity guards that the source
checks before the read-only flag: a non-negative position for `Write`
and the inode-is-a-directory checks for the directory-entry
operations. -/
theorem claim_C6 (m : MState) (iounit : Nat)
    (server : Nat → Nat → Except Status Nat) (pos : Int) (len : Nat)
    (fid toFid dirFid : Nat) (name target fromName toName : List Nat)
    (flags mode statMask : Nat) (stat : StatIn) (publish : Status)
    (hpos : 0 ≤ pos) :
    inodeWriteOp true iounit server pos len = .error bReadOnlyDevice
    ∧ inodeCreateOp true true m dirFid name flags mode publish
        = (m, bReadOnlyDevice, none)
    ∧ inodeRemoveOp true true m fid name = (m, bReadOnlyDevice)
    ∧ inodeRenameOp true true true m fid fromName toFid toName
        = (m, bReadOnlyDevice)
    ∧ inodeCreateDirOp true true m fid name mode = (m, bReadOnlyDevice)
    ∧ inodeRemoveDirOp true true m fid name = (m, bReadOnlyDevice)
    ∧ inodeCreateSymlinkOp true true m fid name target
        = (m, bReadOnlyDevice)
    ∧ inodeWriteStatOp true m fid stat statMask = (m, bReadOnlyDevice) := by
  refine ⟨?_, ?_, ?_, ?_, ?_, ?_, ?_, ?_⟩
  · unfold inodeWriteOp
    rw [if_neg (by omega), if_pos rfl]
  · simp [inodeCreateOp]
  · simp [inodeRemoveOp]
  · simp [inodeRenameOp]
  · simp [inodeCreateDirOp]
  · simp [inodeRemoveDirOp]
  · simp [inodeCreateSymlinkOp]
  · simp [inodeWriteStatOp]

/-- C6 witness: the read-only rejections evaluated at a concrete
connected state with concrete arguments. -/
theorem claim_C6_witness :
    inodeWriteOp true 8181 (fun _ _ => .ok 0) 5 100
      = .error bReadOnlyDevice
    ∧ inodeCreateOp true true (connSt []) 1 [97] 2 420 bOK
        = (connSt [], bReadOnlyDevice, none)
    ∧ inodeRemoveOp true true (connSt []) 1 [97]
        = (connSt [], bReadOnlyDevice)
    ∧ inodeRenameOp true true true (connSt []) 1 [97] 2 [98]
        = (connSt [], bReadOnlyDevice)
    ∧ inodeCreateDirOp true true (connSt []) 1 [97] 420
        = (connSt [], bReadOnlyDevice)
    ∧ inodeRemoveDirOp true true (connSt []) 1 [97]
        = (connSt [], bReadOnlyDevice)
    ∧ inodeCreateSymlinkOp true true (connSt []) 1 [97] [98]
        = (connSt [], bReadOnlyDevice)
    ∧ inodeWriteStatOp true (connSt []) 1 ⟨420, 0, 0, 0, 0, 0, 0, 0⟩ 1
        = (connSt [], bReadOnlyDevice) :=
  claim_C6 (connSt []) 8181 (fun _ _ => .ok 0) 5 100 1 2 1 [97] [98] [97]
    [98] 2 420 1 ⟨420, 0, 0, 0, 0, 0, 0, 0⟩ bOK (by decide)

/-- C9 (amended): `Volume::_ParseArgs` folds the comma-separated
`key[=value]` tokens and recognizes exactly the keys `tag` (stored,
and required by the transport lookup: a missing tag is `B_BAD_VALUE`)
and `aname` (stored, default absent); every other key — including
`msize`, which contrary to the original claim the parser never reads —
is ignored without error, and a `NULL` args string parses to the
defaults. -/
theorem claim_C9 (v : VolArgs) (opt optT optA t : List Nat)
    (hk : (splitEq opt).1 ≠ optTagKey)
    (ha : (splitEq opt).1 ≠ optAnameKey)
    (htag : (splitEq optT).1 = optTagKey)
    (han : (splitEq optA).1 = optAnameKey) :
    parseOneOpt v opt = v
    ∧ parseOneOpt v optT = { v with mountTag := (splitEq optT).2 }
    ∧ parseOneOpt v optA = { v with aname := (splitEq optA).2 }
    ∧ parseArgs v none = v
    ∧ findTransportTagCheck ⟨none, v.aname⟩ = bBadValue
    ∧ findTransportTagCheck ⟨some t, v.aname⟩ = bOK
    ∧ parseArgs v (some [109, 115, 105, 122, 101, 61, 52, 48, 57, 54])
        = v := by
  refine ⟨?_, ?_, ?_, rfl, rfl, rfl, ?_⟩
  · unfold parseOneOpt
    dsimp only
    rw [if_neg hk, if_neg ha]
  · unfold parseOneOpt
    dsimp only
    rw [if_pos htag]
  · unfold parseOneOpt
    dsimp only
    rw [if_neg (by rw [han]; decide), if_pos han]
  · have h1 : splitSep 44 [109, 115, 105, 122, 101, 61, 52, 48, 57, 54]
        = [[109, 115, 105, 122, 101, 61, 52, 48, 57, 54]] := by decide
    unfold parseArgs
    dsimp only
    rw [h1]
    simp only [List.foldl]
    unfold parseOneOpt
    dsimp only
    rw [if_neg (by decide), if_neg (by decide)]

/-- C9 witness: the amended theorem at the tokens `msize=4096`,
`tag=virtio`, `aname=/` over the default options. -/
theorem claim_C9_witness :
    parseOneOpt ⟨none, none⟩ [109, 115, 105, 122, 101, 61, 52, 48, 57, 54]
      = ⟨none, none⟩
    ∧ parseOneOpt ⟨none, none⟩
        [116, 97, 103, 61, 118, 105, 114, 116, 105, 111]
      = ⟨some [118, 105, 114, 116, 105, 111], none⟩
    ∧ parseOneOpt ⟨none, none⟩ [97, 110, 97, 109, 101, 61, 47]
      = ⟨none, some [47]⟩
    ∧ parseArgs ⟨none, none⟩ none = ⟨none, none⟩
    ∧ findTransportTagCheck ⟨none, none⟩ = bBadValue
    ∧ findTransportTagCheck ⟨some [118, 105, 114, 116, 105, 111], none⟩
      = bOK
    ∧ parseArgs ⟨none, none⟩
        (some [109, 115, 105, 122, 101, 61, 52, 48, 57, 54])
      = ⟨none, none⟩ :=
  claim_C9 ⟨none, none⟩ [109, 115, 105, 122, 101, 61, 52, 48, 57, 54]
    [116, 97, 103, 61, 118, 105, 114, 116, 105, 111]
    [97, 110, 97, 109, 101, 61, 47] [118, 105, 114, 116, 105, 111]
    (by decide) (by decide) (by decide) (by decide)

/-- C9 counterexample: mounting with args `tag=virtio,msize=4096`
stores the tag and silently drops `msize`; the parsed options after
`msize=4096` alone are bit-for-bit the defaults.  `_ParseArgs` has no
case for `msize` at all (Volume.cpp lines 252-266 handle only `tag`
and `aname`), refuting the original claim that `msize` is a recognized
key that is read and clamped. -/
theorem claim_C9_counterexample :
    parseArgs ⟨none, none⟩
        (some [116, 97, 103, 61, 118, 105, 114, 116, 105, 111, 44,
          109, 115, 105, 122, 101, 61, 52, 48, 57, 54])
      = ⟨some [118, 105, 114, 116, 105, 111], none⟩
    ∧ parseArgs ⟨none, some [47]⟩
        (some [109, 115, 105, 122, 101, 61, 52, 48, 57, 54])
      = ⟨none, some [47]⟩ := by
  refine ⟨by decide, by decide⟩
